import Mathlib

/-!
Verification of the beat-sheet report worker (`src/beat-sheet/src/index.js` and
its companion UI/utils modules): a shallow embedding in Lean 4 of the report
aggregation pipeline (`generateBeatReport`), the four format projectors
(JSON / HTML / CSV / PDF-optimized HTML), the report request handler, the
all-beats page renderer and the individual beat page, together with theorems
about the specification's claims.

Modelling conventions:
* A JavaScript string is a Lean `String`; nullable values from the D1 database
  are `Option`-typed (`none` = SQL `NULL` / JS `null`).
* JavaScript truthiness on these values is made explicit: for strings, `null`
  and `""` are falsy; for numbers, `null` and `0` are falsy (`jsTruthyS`,
  `jsTruthyN`, and `jsOrS` for the `x || fallback` idiom).
* Template-literal interpolation `${e}` is string concatenation; a number
  interpolates as its decimal text (`jsIntStr`).  `new Date()`-derived text is
  nondeterministic input and is passed in as an explicit parameter.
* A JS object used as a string-keyed dictionary (`reportData` in
  `generateBeatReport`, which only ever holds non-index keys `"Act <n>"`, so
  JS preserves insertion order) is an insertion-ordered association list.
-/

set_option maxRecDepth 8000

/-! ## JavaScript value helpers -/

/-- Truthiness of a nullable JS string: `null` and `""` are falsy. -/
def jsTruthyS : Option String → Bool
  | none => false
  | some s => !(s = "")

/-- Truthiness of a nullable JS number: `null` and `0` are falsy. -/
def jsTruthyN : Option Int → Bool
  | none => false
  | some n => !(n = 0)

/-- The JS idiom `v || d` for a nullable string `v` and string default `d`. -/
def jsOrS (v : Option String) (d : String) : String :=
  if jsTruthyS v then v.getD "" else d

/-- Decimal digit list, fuel-indexed (structurally recursive so that concrete
instances evaluate): most significant digit first. -/
def natDigitsF : Nat → Nat → List Char
  | 0, _ => []
  | f + 1, n =>
    if n < 10 then [Nat.digitChar n]
    else natDigitsF f (n / 10) ++ [Nat.digitChar (n % 10)]

/-- Decimal digit list of a natural number, most significant first: the digit
sequence JS produces when interpolating a non-negative integer. -/
def natDigits (n : Nat) : List Char := natDigitsF (n + 1) n

theorem natDigitsF_eq (fuel n : Nat) (h : n < fuel) :
    natDigitsF fuel n = natDigits n := by
  induction fuel using Nat.strong_induction_on generalizing n with
  | _ fuel ih =>
    cases fuel with
    | zero => omega
    | succ f =>
      by_cases h10 : n < 10
      · rw [natDigits]
        show natDigitsF (f + 1) n = natDigitsF (n + 1) n
        rw [natDigitsF, natDigitsF, if_pos h10, if_pos h10]
      · have hdiv : n / 10 < n := Nat.div_lt_self (by omega) (by omega)
        have h1 : natDigitsF f (n / 10) = natDigits (n / 10) :=
          ih f (by omega) (n / 10) (by omega)
        have h2 : natDigitsF n (n / 10) = natDigits (n / 10) :=
          ih n (by omega) (n / 10) (by omega)
        rw [natDigits]
        show natDigitsF (f + 1) n = natDigitsF (n + 1) n
        rw [natDigitsF, natDigitsF, if_neg h10, h1, h2, if_neg h10]

theorem natDigits_unfold (n : Nat) :
    natDigits n =
      if n < 10 then [Nat.digitChar n]
      else natDigits (n / 10) ++ [Nat.digitChar (n % 10)] := by
  by_cases h10 : n < 10
  · rw [natDigits, natDigitsF, if_pos h10, if_pos h10]
  · rw [natDigits, natDigitsF, if_neg h10,
      natDigitsF_eq n (n / 10) (by
        have := Nat.div_lt_self (show 0 < n by omega) (show 1 < 10 by omega)
        omega), if_neg h10]

/-- Decimal text of a natural number. -/
def jsNatStr (n : Nat) : String := ⟨natDigits n⟩

/-- Decimal text of an integer, as JS renders an integer-valued number. -/
def jsIntStr (i : Int) : String :=
  if i < 0 then "-" ++ jsNatStr i.natAbs else jsNatStr i.toNat

/-- The JS idiom `v || ''` for a nullable number in string position
(`beat.scene_number || ''` in the CSV row): `null` and `0` give `""`. -/
def jsNumOrEmpty (v : Option Int) : String :=
  if jsTruthyN v then jsIntStr (v.getD 0) else ""

/-! Injectivity of the decimal rendering (needed because the aggregator keys
its groups by the template string `Act ${act_no}`). -/

/-- Numeric value of a decimal digit character. -/
def digitVal (c : Char) : Nat := c.toNat - 48

/-- Value of a digit list read in base 10. -/
def digitsVal (l : List Char) : Nat := l.foldl (fun a c => 10 * a + digitVal c) 0

theorem digitVal_digitChar (d : Nat) (h : d < 10) :
    digitVal (Nat.digitChar d) = d := by
  interval_cases d <;> rfl

theorem digitsVal_append_singleton (l : List Char) (c : Char) :
    digitsVal (l ++ [c]) = 10 * digitsVal l + digitVal c := by
  simp [digitsVal, List.foldl_append]

theorem digitsVal_natDigits (n : Nat) : digitsVal (natDigits n) = n := by
  induction n using Nat.strong_induction_on with
  | _ n ih =>
    rw [natDigits_unfold]
    by_cases h : n < 10
    · rw [if_pos h]
      simp [digitsVal, digitVal_digitChar n h]
    · rw [if_neg h]
      rw [digitsVal_append_singleton,
        ih (n / 10) (Nat.div_lt_self (by omega) (by omega)),
        digitVal_digitChar (n % 10) (Nat.mod_lt n (by omega))]
      omega

theorem natDigits_injective : Function.Injective natDigits := by
  intro a b h
  have := congrArg digitsVal h
  rwa [digitsVal_natDigits, digitsVal_natDigits] at this

theorem natDigits_ne_nil (n : Nat) : natDigits n ≠ [] := by
  rw [natDigits_unfold]
  by_cases h : n < 10 <;> simp [h]

theorem ne_dash_of_mem_natDigits (n : Nat) (c : Char) (hc : c ∈ natDigits n) :
    c ≠ '-' := by
  induction n using Nat.strong_induction_on with
  | _ n ih =>
    rw [natDigits_unfold] at hc
    by_cases h : n < 10
    · rw [if_pos h] at hc
      rw [List.mem_singleton] at hc
      subst hc
      interval_cases n <;> decide
    · rw [if_neg h] at hc
      rw [List.mem_append, List.mem_singleton] at hc
      rcases hc with hc | hc
      · exact ih (n / 10) (Nat.div_lt_self (by omega) (by omega)) hc
      · subst hc
        have h10 : n % 10 < 10 := Nat.mod_lt n (by omega)
        interval_cases h : n % 10 <;> decide

theorem jsIntStr_injective : Function.Injective jsIntStr := by
  intro a b h
  unfold jsIntStr at h
  have hdata := congrArg String.data h
  by_cases ha : a < 0 <;> by_cases hb : b < 0 <;>
    simp only [ha, hb, if_true, if_false, String.data_append, jsNatStr] at hdata
  · have : natDigits a.natAbs = natDigits b.natAbs :=
      List.append_cancel_left hdata
    have := natDigits_injective this
    omega
  · exfalso
    have hmem : '-' ∈ natDigits b.toNat := by
      rw [← hdata]
      simp
    exact ne_dash_of_mem_natDigits _ _ hmem rfl
  · exfalso
    have hmem : '-' ∈ natDigits a.toNat := by
      rw [hdata]
      simp
    exact ne_dash_of_mem_natDigits _ _ hmem rfl
  · have : natDigits a.toNat = natDigits b.toNat := hdata
    have := natDigits_injective this
    omega

/-! ## Data model

The query row shape of the aggregate report query (`generateBeatReport`):
all current beats joined with their act, `ORDER BY a.act_no, b.beat_number`. -/

/-- One row of the aggregate join query: beat columns plus `a.act_no` and
`a.title as act_title`. -/
structure BeatRow where
  id : Int
  act_id : Int
  beat_number : Int
  scene_number : Option Int
  title : Option String
  description : Option String
  conflict : Option String
  emotion : Option String
  location : Option String
  time_of_day : Option String
  characters : Option String
  version : Option Int
  created_at : Option String
  updated_at : Option String
  act_no : Int
  act_title : Option String
deriving DecidableEq, Repr

/-- The beat projection pushed into `reportData[actKey].beats`. -/
structure BeatView where
  beat_number : Int
  scene_number : Option Int
  title : Option String
  description : Option String
  conflict : Option String
  emotion : Option String
  location : Option String
  time_of_day : Option String
  characters : Option String
  version : Option Int
  created_at : Option String
  updated_at : Option String
deriving DecidableEq, Repr

/-- One act group of the report (`reportData[actKey]`). -/
structure ActGroup where
  act_no : Int
  act_id : Int
  act_title : Option String
  beats : List BeatView
  beat_count : Nat
deriving DecidableEq, Repr

/-- One entry of `summary.beats_per_act`. -/
structure BeatsPerActEntry where
  act_no : Int
  act_title : Option String
  beat_count : Nat
deriving DecidableEq, Repr

/-- The report summary. -/
structure Summary where
  total_acts : Nat
  total_beats : Nat
  beats_per_act : List BeatsPerActEntry
deriving DecidableEq, Repr

/-- The Report Model shared by all projectors. -/
structure Report where
  report_type : String
  generated_at : String
  summary : Summary
  acts : List ActGroup
deriving DecidableEq, Repr

/-! ## Beat Report Aggregator (`generateBeatReport`) -/

/-- The grouping key `` `Act ${beat.act_no}` ``. -/
def actKey (n : Int) : String := "Act " ++ jsIntStr n

theorem actKey_injective : Function.Injective actKey := by
  intro a b h
  apply jsIntStr_injective
  have := congrArg String.data h
  simp only [actKey, String.data_append] at this
  have := List.append_cancel_left this
  exact String.ext this

/-- `reportData[actKey]` projection of a row. -/
def beatViewOfRow (beat : BeatRow) : BeatView :=
  { beat_number := beat.beat_number
    scene_number := beat.scene_number
    title := beat.title
    description := beat.description
    conflict := beat.conflict
    emotion := beat.emotion
    location := beat.location
    time_of_day := beat.time_of_day
    characters := beat.characters
    version := beat.version
    created_at := beat.created_at
    updated_at := beat.updated_at }

/-- The fresh group created when `!reportData[actKey]`. -/
def newGroup (beat : BeatRow) : ActGroup :=
  { act_no := beat.act_no
    act_id := beat.act_id
    act_title := beat.act_title
    beats := []
    beat_count := 0 }

/-- `reportData[actKey].beats.push(…); reportData[actKey].beat_count++`. -/
def pushBeat (g : ActGroup) (v : BeatView) : ActGroup :=
  { g with beats := g.beats ++ [v], beat_count := g.beat_count + 1 }

/-- Update the (unique) association-list entry carrying `key` by pushing the
beat view, modelling the JS object member update. -/
def pushBeatIntoKey (key : String) (v : BeatView) :
    List (String × ActGroup) → List (String × ActGroup)
  | [] => []
  | (k, g) :: rest =>
    if k == key then (k, pushBeat g v) :: rest
    else (k, g) :: pushBeatIntoKey key v rest

/-- One iteration of the `for (const beat of beats.results)` loop acting on the
insertion-ordered dictionary `reportData`. -/
def reportStep (data : List (String × ActGroup)) (beat : BeatRow) :
    List (String × ActGroup) :=
  let key := actKey beat.act_no
  let ensured :=
    if data.any (fun p => p.1 == key) then data
    else data ++ [(key, newGroup beat)]
  pushBeatIntoKey key (beatViewOfRow beat) ensured

/-- `generateBeatReport`'s aggregation: fold the ordered rows into grouped
form, count the total, and assemble the report object.  `nowIso` stands for
`new Date().toISOString()`. -/
def generateBeatReport (nowIso : String) (rows : List BeatRow) : Report :=
  let st := rows.foldl
    (fun (st : List (String × ActGroup) × Nat) beat =>
      (reportStep st.1 beat, st.2 + 1))
    ([], 0)
  let acts := st.1.map Prod.snd
  { report_type := "beats_by_act"
    generated_at := nowIso
    summary :=
      { total_acts := acts.length
        total_beats := st.2
        beats_per_act := acts.map (fun act =>
          { act_no := act.act_no
            act_title := act.act_title
            beat_count := act.beat_count }) }
    acts := acts }

/-! ## CSV Projector (`generateCSVReport`, `escapeCSV`) -/

/-- Replace every `"` by `""`, character-level model of
`str.replace(/"/g, '""')`. -/
def doubleQuotes : List Char → List Char
  | [] => []
  | c :: rest =>
    if c = '"' then '"' :: '"' :: doubleQuotes rest
    else c :: doubleQuotes rest

/-- `escapeCSV`: `null`/`undefined` render as `''`; a string is quoted with
internal quotes doubled exactly when it contains `,`, `"` or a newline
(`str.includes` of a single character is character membership). -/
def escapeCSV (field : Option String) : String :=
  match field with
  | none => ""
  | some str =>
    if str.data.contains ',' || str.data.contains '"' || str.data.contains '\n' then
      "\"" ++ String.mk (doubleQuotes str.data) ++ "\""
    else str

/-- The fixed CSV header row. -/
def csvHeader : String :=
  "Act Number,Act Title,Beat Number,Scene Number,Beat Title,Description,Conflict,Emotion,Location,Time of Day,Characters,Version,Created At,Updated At\n"

/-- One CSV data row (`row.join(',') + '\n'`). -/
def csvRow (act : ActGroup) (beat : BeatView) : String :=
  String.intercalate ","
    [ jsIntStr act.act_no
    , escapeCSV (some (jsOrS act.act_title ""))
    , jsIntStr beat.beat_number
    , jsNumOrEmpty beat.scene_number
    , escapeCSV (some (jsOrS beat.title ""))
    , escapeCSV (some (jsOrS beat.description ""))
    , escapeCSV (some (jsOrS beat.conflict ""))
    , escapeCSV (some (jsOrS beat.emotion ""))
    , escapeCSV (some (jsOrS beat.location ""))
    , escapeCSV (some (jsOrS beat.time_of_day ""))
    , escapeCSV (some (jsOrS beat.characters ""))
    , jsNumOrEmpty beat.version
    , jsOrS beat.created_at ""
    , jsOrS beat.updated_at "" ] ++ "\n"

/-- `generateCSVReport`: header line, then one row per beat in report order. -/
def generateCSVReport (report : Report) : String :=
  report.acts.foldl
    (fun csv act => act.beats.foldl (fun csv beat => csv ++ csvRow act beat) csv)
    csvHeader

/-! ## Aggregator lemmas: counts -/

/-- Sum of the per-group counters of the accumulator. -/
def sumCounts (data : List (String × ActGroup)) : Nat :=
  (data.map (fun p => p.2.beat_count)).sum

/-- Every group's counter equals the length of its beats list. -/
def CountsWF (data : List (String × ActGroup)) : Prop :=
  ∀ p ∈ data, p.2.beat_count = p.2.beats.length

theorem sumCounts_append (d₁ d₂ : List (String × ActGroup)) :
    sumCounts (d₁ ++ d₂) = sumCounts d₁ + sumCounts d₂ := by
  simp [sumCounts]

theorem pushBeatIntoKey_sum (key : String) (v : BeatView) :
    ∀ data : List (String × ActGroup), (∃ p ∈ data, p.1 = key) →
      sumCounts (pushBeatIntoKey key v data) = sumCounts data + 1 := by
  intro data
  induction data with
  | nil => rintro ⟨p, hp, _⟩; cases hp
  | cons hd tl ih =>
    rintro ⟨p, hp, hkey⟩
    obtain ⟨k, g⟩ := hd
    by_cases hk : k = key
    · simp [pushBeatIntoKey, hk, sumCounts, pushBeat]
      omega
    · have hmem : p ∈ tl := by
        rcases List.mem_cons.mp hp with h | h
        · exfalso; apply hk; rw [← hkey, h]
        · exact h
      simp only [pushBeatIntoKey, beq_iff_eq, hk, if_false]
      have := ih ⟨p, hmem, hkey⟩
      simp only [sumCounts, List.map_cons, List.sum_cons] at *
      omega

theorem reportStep_sum (data : List (String × ActGroup)) (beat : BeatRow) :
    sumCounts (reportStep data beat) = sumCounts data + 1 := by
  unfold reportStep
  by_cases hany : data.any (fun p => p.1 == actKey beat.act_no)
  · simp only [hany, if_true]
    apply pushBeatIntoKey_sum
    obtain ⟨p, hp, hkey⟩ := List.any_eq_true.mp hany
    exact ⟨p, hp, beq_iff_eq.mp hkey⟩
  · simp only [Bool.not_eq_true] at hany
    simp only [hany, Bool.false_eq_true, if_false]
    have hmem : ((actKey beat.act_no, newGroup beat) : String × ActGroup) ∈
        data ++ [(actKey beat.act_no, newGroup beat)] :=
      List.mem_append_right _ (List.mem_singleton.mpr rfl)
    rw [pushBeatIntoKey_sum (actKey beat.act_no) (beatViewOfRow beat) _ ⟨_, hmem, rfl⟩,
      sumCounts_append]
    simp [sumCounts, newGroup]

theorem pushBeatIntoKey_countsWF (key : String) (v : BeatView)
    (data : List (String × ActGroup)) (h : CountsWF data) :
    CountsWF (pushBeatIntoKey key v data) := by
  induction data with
  | nil => exact h
  | cons hd tl ih =>
    obtain ⟨k, g⟩ := hd
    by_cases hk : k = key
    · simp only [pushBeatIntoKey, beq_iff_eq, hk, if_true]
      intro p hp
      rcases List.mem_cons.mp hp with h' | h'
      · subst h'
        have hg := h (k, g) (List.mem_cons_self _ _)
        simp only at hg
        simp [pushBeat, hg]
      · exact h p (List.mem_cons_of_mem _ h')
    · simp only [pushBeatIntoKey, beq_iff_eq, hk, if_false]
      intro p hp
      rcases List.mem_cons.mp hp with h' | h'
      · subst h'; exact h (k, g) (List.mem_cons_self _ _)
      · exact ih (fun q hq => h q (List.mem_cons_of_mem _ hq)) p h'

theorem reportStep_countsWF (data : List (String × ActGroup)) (beat : BeatRow)
    (h : CountsWF data) : CountsWF (reportStep data beat) := by
  unfold reportStep
  apply pushBeatIntoKey_countsWF
  by_cases hany : data.any (fun p => p.1 == actKey beat.act_no)
  · simpa [hany] using h
  · simp only [Bool.not_eq_true] at hany
    simp only [hany, Bool.false_eq_true, if_false]
    intro p hp
    rcases List.mem_append.mp hp with h' | h'
    · exact h p h'
    · rw [List.mem_singleton.mp h']
      rfl

theorem foldl_reportStep_sum (rows : List BeatRow) :
    ∀ data, sumCounts (rows.foldl reportStep data) = sumCounts data + rows.length := by
  induction rows with
  | nil => intro data; simp
  | cons r rest ih =>
    intro data
    simp only [List.foldl_cons, ih (reportStep data r), reportStep_sum, List.length_cons]
    omega

theorem foldl_reportStep_countsWF (rows : List BeatRow) :
    ∀ data, CountsWF data → CountsWF (rows.foldl reportStep data) := by
  induction rows with
  | nil => intro data h; exact h
  | cons r rest ih =>
    intro data h
    exact ih _ (reportStep_countsWF data r h)

theorem generateBeatReport_fold (nowIso : String) (rows : List BeatRow) :
    generateBeatReport nowIso rows =
      let data := rows.foldl reportStep []
      let acts := data.map Prod.snd
      { report_type := "beats_by_act"
        generated_at := nowIso
        summary :=
          { total_acts := acts.length
            total_beats := rows.length
            beats_per_act := acts.map (fun act =>
              { act_no := act.act_no
                act_title := act.act_title
                beat_count := act.beat_count }) }
        acts := acts } := by
  have hpair : ∀ (rows : List BeatRow) (d : List (String × ActGroup)) (n : Nat),
      rows.foldl (fun (st : List (String × ActGroup) × Nat) beat =>
        (reportStep st.1 beat, st.2 + 1)) (d, n) =
      (rows.foldl reportStep d, n + rows.length) := by
    intro rows
    induction rows with
    | nil => intro d n; simp
    | cons r rest ih =>
      intro d n
      simp only [List.foldl_cons, ih, List.length_cons]
      congr 1
      omega
  unfold generateBeatReport
  rw [hpair]
  simp


/-- C1: for every result set, the report's `total_beats` equals the number of
rows, equals the sum of per-group `beat_count`; every group's `beat_count` is
the length of its `beats` list; `total_acts` is the length of `acts`; and an
empty result set yields `acts = []`, `total_acts = 0`, `total_beats = 0`. -/
theorem C1_report_totals (nowIso : String) (rows : List BeatRow) :
    (generateBeatReport nowIso rows).summary.total_beats = rows.length ∧
    ((generateBeatReport nowIso rows).acts.map (fun a => a.beat_count)).sum = rows.length ∧
    ((generateBeatReport nowIso rows).acts.all
      (fun a => a.beat_count == a.beats.length)) = true ∧
    (generateBeatReport nowIso rows).summary.total_acts =
      (generateBeatReport nowIso rows).acts.length ∧
    (generateBeatReport nowIso []).acts = [] ∧
    (generateBeatReport nowIso []).summary.total_acts = 0 ∧
    (generateBeatReport nowIso []).summary.total_beats = 0 := by
  rw [generateBeatReport_fold, generateBeatReport_fold]
  refine ⟨rfl, ?_, ?_, rfl, rfl, rfl, rfl⟩
  · have := foldl_reportStep_sum rows []
    simp only [sumCounts, List.map_map] at *
    simpa using this
  · rw [List.all_eq_true]
    intro a ha
    simp only [List.mem_map] at ha
    obtain ⟨p, hp, rfl⟩ := ha
    exact beq_iff_eq.mpr
      (foldl_reportStep_countsWF rows [] (fun q hq => absurd hq (List.not_mem_nil q)) p hp)

/-! ## Aggregator lemmas: ordering (claim C2) -/

/-- Strict lexicographic order on rows by `(act_no, beat_number)`: adjacent
rows of a result list sorted by `ORDER BY act_no, beat_number` with at most
one row per pair are related by it. -/
def rowLt (a b : BeatRow) : Prop :=
  a.act_no < b.act_no ∨ (a.act_no = b.act_no ∧ a.beat_number < b.beat_number)

instance (a b : BeatRow) : Decidable (rowLt a b) :=
  inferInstanceAs (Decidable (a.act_no < b.act_no ∨
    (a.act_no = b.act_no ∧ a.beat_number < b.beat_number)))

/-- Every accumulator entry's key is the act key of its group. -/
def KeysWF (data : List (String × ActGroup)) : Prop :=
  ∀ p ∈ data, p.1 = actKey p.2.act_no

/-- Invariant of the grouping accumulator: well-formed keys, strictly
ascending group `act_no`s, strictly ascending `beat_number`s per group. -/
def AggInv (data : List (String × ActGroup)) : Prop :=
  KeysWF data ∧
  List.Chain' (fun p q : String × ActGroup => p.2.act_no < q.2.act_no) data ∧
  ∀ p ∈ data, List.Chain' (fun u v : BeatView => u.beat_number < v.beat_number) p.2.beats

/-- The next row to process sits strictly after the accumulator's last group:
in a later act, or in the same act with a larger beat number. -/
def connOK (data : List (String × ActGroup)) (r : BeatRow) : Prop :=
  match data.getLast? with
  | none => True
  | some p => p.2.act_no < r.act_no ∨
      (p.2.act_no = r.act_no ∧ ∀ b ∈ p.2.beats, b.beat_number < r.beat_number)

theorem chain'_concat_lt (l : List (String × ActGroup)) (a : String × ActGroup)
    (h : List.Chain' (fun p q : String × ActGroup => p.2.act_no < q.2.act_no) (l ++ [a])) :
    ∀ x ∈ l, x.2.act_no < a.2.act_no := by
  letI : IsTrans (String × ActGroup) (fun p q : String × ActGroup => p.2.act_no < q.2.act_no) :=
    ⟨fun _ _ _ h1 h2 => lt_trans h1 h2⟩
  have hp := List.chain'_iff_pairwise.mp h
  obtain ⟨-, -, hcross⟩ := List.pairwise_append.mp hp
  intro x hx
  exact hcross x hx a (List.mem_singleton.mpr rfl)

theorem pushBeatIntoKey_concat (key : String) (v : BeatView) :
    ∀ (l : List (String × ActGroup)) (g : ActGroup), (∀ p ∈ l, p.1 ≠ key) →
      pushBeatIntoKey key v (l ++ [(key, g)]) = l ++ [(key, pushBeat g v)] := by
  intro l
  induction l with
  | nil => intro g _; simp [pushBeatIntoKey]
  | cons hd tl ih =>
    intro g hne
    obtain ⟨k, g'⟩ := hd
    have hk : k ≠ key := hne (k, g') (List.mem_cons_self _ _)
    simp only [List.cons_append, pushBeatIntoKey, beq_iff_eq, hk, if_false]
    exact congrArg (List.cons (k, g')) (ih g (fun p hp => hne p (List.mem_cons_of_mem _ hp)))

/-- Processing one row either extends the last group (same act) or appends a
fresh group for a strictly later act. -/
theorem reportStep_cases (data : List (String × ActGroup)) (r : BeatRow)
    (hkeys : KeysWF data)
    (hsorted : List.Chain' (fun p q : String × ActGroup => p.2.act_no < q.2.act_no) data)
    (hconn : connOK data r) :
    (∃ init glast, data = init ++ [(actKey r.act_no, glast)] ∧
       glast.act_no = r.act_no ∧
       (∀ b ∈ glast.beats, b.beat_number < r.beat_number) ∧
       reportStep data r = init ++ [(actKey r.act_no, pushBeat glast (beatViewOfRow r))]) ∨
    ((∀ p ∈ data, p.2.act_no < r.act_no) ∧
       reportStep data r = data ++ [(actKey r.act_no, pushBeat (newGroup r) (beatViewOfRow r))]) := by
  by_cases hany : data.any (fun p => p.1 == actKey r.act_no)
  · left
    obtain ⟨p, hp, hpkey⟩ := List.any_eq_true.mp hany
    have hpkey : p.1 = actKey r.act_no := beq_iff_eq.mp hpkey
    have hpact : p.2.act_no = r.act_no :=
      actKey_injective ((hkeys p hp).symm.trans hpkey)
    -- split off the last entry
    rcases List.eq_nil_or_concat data with hnil | ⟨init, lastp, hdata⟩
    · subst hnil; cases hp
    rw [List.concat_eq_append] at hdata
    subst hdata
    have hlast : (init ++ [lastp]).getLast? = some lastp := by
      simp [List.getLast?_concat]
    unfold connOK at hconn
    rw [hlast] at hconn
    have hlt := chain'_concat_lt init lastp hsorted
    -- the matching entry must be the last one
    have hlastact : lastp.2.act_no = r.act_no ∧
        ∀ b ∈ lastp.2.beats, b.beat_number < r.beat_number := by
      rcases hconn with hconn | hconn
      · exfalso
        rcases List.mem_append.mp hp with hpin | hpin
        · exact absurd hpact (by have := hlt p hpin; omega)
        · rw [List.mem_singleton.mp hpin] at hpact
          omega
      · exact hconn
    have hlastkey : lastp.1 = actKey r.act_no := by
      rw [hkeys lastp (List.mem_append_right _ (List.mem_singleton.mpr rfl)), hlastact.1]
    refine ⟨init, lastp.2, ?_, hlastact.1, hlastact.2, ?_⟩
    · rw [← hlastkey]
    · unfold reportStep
      simp only [hany, if_true]
      have hinitne : ∀ p ∈ init, p.1 ≠ actKey r.act_no := by
        intro q hq hqkey
        have : q.2.act_no = r.act_no :=
          actKey_injective ((hkeys q (List.mem_append_left _ hq)).symm.trans hqkey)
        have := hlt q hq
        omega
      have : (init ++ [lastp]) = init ++ [(actKey r.act_no, lastp.2)] := by
        rw [← hlastkey]
      rw [this, pushBeatIntoKey_concat _ _ init lastp.2 hinitne]
  · right
    have hne : ∀ p ∈ data, p.1 ≠ actKey r.act_no := by
      intro p hp
      have hfalse : (data.any fun q => q.1 == actKey r.act_no) = false :=
        Bool.eq_false_iff.mpr hany
      have := List.any_eq_false.mp hfalse p hp
      simpa using this
    constructor
    · intro p hp
      rcases List.eq_nil_or_concat data with hnil | ⟨init, lastp, hdata⟩
      · subst hnil; cases hp
      rw [List.concat_eq_append] at hdata
      subst hdata
      have hlast : (init ++ [lastp]).getLast? = some lastp := by
        simp [List.getLast?_concat]
      unfold connOK at hconn
      rw [hlast] at hconn
      have hlastlt : lastp.2.act_no < r.act_no := by
        rcases hconn with hconn | hconn
        · exact hconn
        · exfalso
          apply hne lastp (List.mem_append_right _ (List.mem_singleton.mpr rfl))
          rw [hkeys lastp (List.mem_append_right _ (List.mem_singleton.mpr rfl)), hconn.1]
      rcases List.mem_append.mp hp with hpin | hpin
      · have := chain'_concat_lt init lastp hsorted p hpin
        omega
      · rw [List.mem_singleton.mp hpin]
        exact hlastlt
    · unfold reportStep
      have hany' : (data.any (fun p => p.1 == actKey r.act_no)) = false := by
        rw [List.any_eq_false]
        intro p hp
        simpa using hne p hp
      simp only [hany', Bool.false_eq_true, if_false]
      exact pushBeatIntoKey_concat _ _ data (newGroup r) hne

theorem reportStep_inv (data : List (String × ActGroup)) (r : BeatRow)
    (hinv : AggInv data) (hconn : connOK data r) :
    AggInv (reportStep data r) ∧ ∀ r', rowLt r r' → connOK (reportStep data r) r' := by
  obtain ⟨hkeys, hsorted, hbeats⟩ := hinv
  rcases reportStep_cases data r hkeys hsorted hconn with
    ⟨init, glast, hdata, hact, hbnd, hstep⟩ | ⟨hlt, hstep⟩
  · subst hdata
    rw [hstep]
    have hmemlast : ((actKey r.act_no, glast) : String × ActGroup) ∈
        init ++ [(actKey r.act_no, glast)] :=
      List.mem_append_right _ (List.mem_singleton.mpr rfl)
    have hbeats' : List.Chain' (fun u v : BeatView => u.beat_number < v.beat_number)
        (glast.beats ++ [beatViewOfRow r]) := by
      rw [List.chain'_append]
      refine ⟨hbeats _ hmemlast, List.chain'_singleton _, ?_⟩
      intro x hx y hy
      rw [List.head?_cons, Option.mem_some_iff] at hy
      subst hy
      exact hbnd x (List.mem_of_mem_getLast? hx)
    refine ⟨⟨?_, ?_, ?_⟩, ?_⟩
    · intro p hp
      rcases List.mem_append.mp hp with hpin | hpin
      · exact hkeys p (List.mem_append_left _ hpin)
      · rw [List.mem_singleton.mp hpin]
        simp [pushBeat, hact]
    · rw [List.chain'_append] at hsorted ⊢
      refine ⟨hsorted.1, List.chain'_singleton _, ?_⟩
      intro x hx y hy
      rw [List.head?_cons, Option.mem_some_iff] at hy
      subst hy
      have := hsorted.2.2 x hx (actKey r.act_no, glast) (by simp)
      simpa [pushBeat] using this
    · intro p hp
      rcases List.mem_append.mp hp with hpin | hpin
      · exact hbeats p (List.mem_append_left _ hpin)
      · rw [List.mem_singleton.mp hpin]
        simpa [pushBeat] using hbeats'
    · intro r' hr'
      unfold connOK
      rw [List.getLast?_concat]
      simp only [pushBeat, Option.mem_some_iff]
      rcases hr' with hr' | hr'
      · left
        simpa [hact] using hr'
      · right
        refine ⟨by simpa [hact] using hr'.1, ?_⟩
        intro b hb
        rcases List.mem_append.mp hb with hbin | hbin
        · have := hbnd b hbin
          omega
        · rw [List.mem_singleton.mp hbin]
          exact hr'.2
  · rw [hstep]
    refine ⟨⟨?_, ?_, ?_⟩, ?_⟩
    · intro p hp
      rcases List.mem_append.mp hp with hpin | hpin
      · exact hkeys p hpin
      · rw [List.mem_singleton.mp hpin]
        simp [pushBeat, newGroup]
    · rw [List.chain'_append]
      refine ⟨hsorted, List.chain'_singleton _, ?_⟩
      intro x hx y hy
      rw [List.head?_cons, Option.mem_some_iff] at hy
      subst hy
      have := hlt x (List.mem_of_mem_getLast? hx)
      simpa [pushBeat, newGroup] using this
    · intro p hp
      rcases List.mem_append.mp hp with hpin | hpin
      · exact hbeats p hpin
      · rw [List.mem_singleton.mp hpin]
        simp [pushBeat, newGroup]
    · intro r' hr'
      unfold connOK
      rw [List.getLast?_concat]
      simp only [pushBeat, newGroup, Option.mem_some_iff]
      rcases hr' with hr' | hr'
      · left
        simpa using hr'
      · right
        refine ⟨by simpa using hr'.1, ?_⟩
        intro b hb
        simp only [List.nil_append, List.mem_singleton] at hb
        rw [hb]
        exact hr'.2

theorem foldl_reportStep_inv (rows : List BeatRow) :
    ∀ data, List.Chain' rowLt rows → AggInv data →
      (∀ r, rows.head? = some r → connOK data r) →
      AggInv (rows.foldl reportStep data) := by
  induction rows with
  | nil => intro data _ hinv _; exact hinv
  | cons r rest ih =>
    intro data hchain hinv hconn
    rw [List.chain'_cons'] at hchain
    have hstep := reportStep_inv data r hinv (hconn r rfl)
    refine ih (reportStep data r) hchain.2 hstep.1 ?_
    intro r' hr'
    exact hstep.2 r' (hchain.1 r' hr')

/-- C2: for a result list sorted by `(act_no, beat_number)` with at most one
row per pair, the report's act groups are strictly ascending in `act_no`,
`beats_per_act` lists the acts in the same order, and each group's beats are
strictly ascending in `beat_number`. -/
theorem C2_report_ordering (nowIso : String) (rows : List BeatRow)
    (hsorted : List.Chain' rowLt rows) :
    List.Chain' (fun g h : ActGroup => g.act_no < h.act_no)
      (generateBeatReport nowIso rows).acts ∧
    (generateBeatReport nowIso rows).summary.beats_per_act =
      (generateBeatReport nowIso rows).acts.map (fun a =>
        { act_no := a.act_no, act_title := a.act_title, beat_count := a.beat_count }) ∧
    ∀ g ∈ (generateBeatReport nowIso rows).acts,
      List.Chain' (fun u v : BeatView => u.beat_number < v.beat_number) g.beats := by
  have hinv := foldl_reportStep_inv rows [] hsorted
    ⟨fun p hp => absurd hp (List.not_mem_nil p), List.chain'_nil,
      fun p hp => absurd hp (List.not_mem_nil p)⟩
    (fun r _ => trivial)
  obtain ⟨-, hsort, hbeats⟩ := hinv
  rw [generateBeatReport_fold]
  refine ⟨?_, rfl, ?_⟩
  · exact (List.chain'_map Prod.snd).mpr hsort
  · intro g hg
    simp only [List.mem_map] at hg
    obtain ⟨p, hp, rfl⟩ := hg
    exact hbeats p hp

/-- Concrete row for the C2 witness. -/
def c2DemoRow (a bn : Int) : BeatRow :=
  ⟨0, a, bn, none, none, none, none, none, none, none, none, none, none, none, a, none⟩

theorem c2DemoRows_sorted :
    List.Chain' rowLt [c2DemoRow 1 1, c2DemoRow 1 2, c2DemoRow 2 1] :=
  List.chain'_cons.mpr ⟨by decide,
    List.chain'_cons.mpr ⟨by decide, List.chain'_singleton _⟩⟩

theorem C2_report_ordering_witness :
    List.Chain' rowLt [c2DemoRow 1 1, c2DemoRow 1 2, c2DemoRow 2 1] ∧
    List.Chain' (fun g h : ActGroup => g.act_no < h.act_no)
      (generateBeatReport "t" [c2DemoRow 1 1, c2DemoRow 1 2, c2DemoRow 2 1]).acts :=
  ⟨c2DemoRows_sorted, (C2_report_ordering "t" [c2DemoRow 1 1, c2DemoRow 1 2, c2DemoRow 2 1]
    c2DemoRows_sorted).1⟩

/-! ## CSV escaping properties (claim C3) -/

/-- The spec's trigger condition for CSV quoting: the text contains a comma,
a double quote, or a newline. -/
def csvNeedsQuote (s : String) : Bool :=
  s.data.contains ',' || s.data.contains '"' || s.data.contains '\n'

/-- A field text is wrapped in double quotes: at least two characters, the
first and last being `"`. -/
def isWrapped (t : String) : Bool :=
  decide (2 ≤ t.data.length) && (t.data.head? == some '"') && (t.data.getLast? == some '"')

/-- CSV field parsing, as the spec describes it: collapse each doubled double
quote back to one. -/
def collapseQuotes : List Char → List Char
  | [] => []
  | [c] => [c]
  | c :: d :: rest =>
    if c = '"' ∧ d = '"' then '"' :: collapseQuotes rest
    else c :: collapseQuotes (d :: rest)

/-- CSV field parsing, as the spec describes it: strip the outer quotes of a
wrapped field and collapse doubled quotes; leave an unwrapped field alone. -/
def parseCSVField (t : String) : String :=
  if 2 ≤ t.data.length ∧ t.data.head? = some '"' ∧ t.data.getLast? = some '"' then
    String.mk (collapseQuotes (t.data.drop 1).dropLast)
  else t

theorem doubleQuotes_eq_nil_iff (l : List Char) : doubleQuotes l = [] ↔ l = [] := by
  cases l with
  | nil => simp [doubleQuotes]
  | cons c rest =>
    constructor
    · intro h
      unfold doubleQuotes at h
      by_cases hc : c = '"' <;> simp [hc] at h
    · intro h
      cases h

theorem collapseQuotes_doubleQuotes (l : List Char) :
    collapseQuotes (doubleQuotes l) = l := by
  induction l with
  | nil => rfl
  | cons c rest ih =>
    by_cases hc : c = '"'
    · subst hc
      simp only [doubleQuotes, if_true]
      rw [collapseQuotes]
      simp [ih]
    · simp only [doubleQuotes, hc, if_false]
      cases hdq : doubleQuotes rest with
      | nil =>
        rw [(doubleQuotes_eq_nil_iff rest).mp hdq]
        rfl
      | cons d rest' =>
        rw [collapseQuotes]
        simp only [hc, false_and, if_false]
        rw [← hdq, ih]

theorem escapeCSV_some_eq (s : String) :
    escapeCSV (some s) =
      if s.data.contains ',' || s.data.contains '"' || s.data.contains '\n' then
        "\"" ++ String.mk (doubleQuotes s.data) ++ "\""
      else s := rfl

theorem escapeCSV_data_of_needsQuote (s : String) (h : csvNeedsQuote s = true) :
    (escapeCSV (some s)).data = '"' :: (doubleQuotes s.data ++ ['"']) := by
  unfold csvNeedsQuote at h
  rw [escapeCSV_some_eq, if_pos h]
  rfl

/-- Properties of the `escapeCSV` helper: it renders `null`/absent as the
empty string (never the word "null"); its output is wrapped in double quotes
exactly when the text contains a comma, a double quote or a newline; and for
a text that does require quoting, stripping the outer quotes and collapsing
doubled quotes recovers the original text exactly. -/
theorem escapeCSV_props (s : String) :
    escapeCSV none = "" ∧
    isWrapped (escapeCSV (some s)) = csvNeedsQuote s ∧
    (csvNeedsQuote s = true → parseCSVField (escapeCSV (some s)) = s) := by
  refine ⟨rfl, ?_, ?_⟩
  · by_cases h : csvNeedsQuote s
    · rw [h, isWrapped]
      have hdata := escapeCSV_data_of_needsQuote s h
      rw [hdata]
      have hlast : (('"' :: doubleQuotes s.data) ++ ['"']).getLast? = some '"' :=
        List.getLast?_concat _
      simp only [List.cons_append] at hlast
      rw [hlast]
      simp only [List.head?_cons, beq_self_eq_true, Bool.and_true]
      simp only [decide_eq_true_eq, List.length_cons, List.length_append,
        List.length_singleton]
      omega
    · rw [Bool.not_eq_true] at h
      rw [h, isWrapped]
      have hcond := h
      unfold csvNeedsQuote at hcond
      rw [escapeCSV_some_eq, hcond]
      simp only [Bool.false_eq_true, if_false]
      cases hs : s.data with
      | nil => simp [hs]
      | cons c rest =>
        have hc : c ≠ '"' := by
          intro hceq
          subst hceq
          rw [Bool.or_eq_false_iff, Bool.or_eq_false_iff] at hcond
          have := hcond.1.2
          rw [hs] at this
          simp [List.contains_cons] at this
        simp [hc]
  · intro h
    unfold parseCSVField
    have hdata := escapeCSV_data_of_needsQuote s h
    rw [hdata]
    have hlast : (('"' :: doubleQuotes s.data) ++ ['"']).getLast? = some '"' :=
      List.getLast?_concat _
    simp only [List.cons_append] at hlast
    rw [if_pos ⟨by
        simp only [List.length_cons, List.length_append, List.length_singleton]
        omega,
      rfl, hlast⟩]
    simp only [List.drop_succ_cons, List.drop_zero]
    rw [List.dropLast_concat, collapseQuotes_doubleQuotes]

/-- A demonstration beat whose `created_at` timestamp contains a comma.  All
other optional columns are null. -/
def c3Beat : BeatView :=
  { beat_number := 1, scene_number := none, title := none, description := none
    conflict := none, emotion := none, location := none, time_of_day := none
    characters := none, version := none
    created_at := some "2024, bogus", updated_at := none }

/-- A one-beat act group holding `c3Beat`. -/
def c3Act : ActGroup :=
  { act_no := 1, act_id := 1, act_title := none, beats := [c3Beat], beat_count := 1 }

/-- A one-beat report holding `c3Act`, used to evaluate the CSV projector. -/
def c3CsvReport : Report :=
  { report_type := "beats_by_act", generated_at := "t"
    summary :=
      { total_acts := 1, total_beats := 1
        beats_per_act := [{ act_no := 1, act_title := none, beat_count := 1 }] }
    acts := [c3Act] }

/-- C3 counterexample: the claim quantifies over every field value the CSV
projector emits, but the `Created At` and `Updated At` columns bypass
`escapeCSV` (the source emits `beat.created_at || ''` raw).  With a
`created_at` of `"2024, bogus"` — a value containing a comma, so the claim
requires it to be wrapped in double quotes — the projector's full output
contains the value raw and holds no double-quote character at all, so the
field is not wrapped and the emitted row misparses (the comma splits the
field), refuting both the wrapped-iff and the round-trip parts of the claim
at its stated scope. -/
theorem C3_timestamp_unescaped :
    csvNeedsQuote "2024, bogus" = true ∧
    generateCSVReport c3CsvReport = csvHeader ++ "1,,1,,,,,,,,,,2024, bogus,\n" ∧
    (generateCSVReport c3CsvReport).data.contains '"' = false :=
  ⟨by decide, by decide, by decide⟩

/-- C3 (amended): the escaping rule holds for exactly the ten columns the CSV
projector routes through `escapeCSV` — act number strings aside, these are
act title, beat title, description, conflict, emotion, location, time of day
and characters.  For those, `escapeCSV` renders null/absent as the empty
string (never the word "null"), wraps the text in double quotes with internal
quotes doubled exactly when it contains a comma, a double quote or a newline,
and stripping the outer quotes and collapsing doubled quotes recovers the
original text.  The `created_at` and `updated_at` columns are NOT routed
through `escapeCSV`: the row emits them raw (null still renders as the empty
string, but the string value passes through unchanged, never wrapped or
doubled), as the row equation below exhibits. -/
theorem C3_csv_field_escaping (s : String) (act : ActGroup) (beat : BeatView) :
    escapeCSV none = "" ∧
    isWrapped (escapeCSV (some s)) = csvNeedsQuote s ∧
    (csvNeedsQuote s = true → parseCSVField (escapeCSV (some s)) = s) ∧
    csvRow act beat =
      jsIntStr act.act_no ++ "," ++ escapeCSV (some (jsOrS act.act_title "")) ++ ","
        ++ jsIntStr beat.beat_number ++ "," ++ jsNumOrEmpty beat.scene_number ++ ","
        ++ escapeCSV (some (jsOrS beat.title "")) ++ ","
        ++ escapeCSV (some (jsOrS beat.description "")) ++ ","
        ++ escapeCSV (some (jsOrS beat.conflict "")) ++ ","
        ++ escapeCSV (some (jsOrS beat.emotion "")) ++ ","
        ++ escapeCSV (some (jsOrS beat.location "")) ++ ","
        ++ escapeCSV (some (jsOrS beat.time_of_day "")) ++ ","
        ++ escapeCSV (some (jsOrS beat.characters "")) ++ ","
        ++ jsNumOrEmpty beat.version ++ ","
        ++ jsOrS beat.created_at "" ++ "," ++ jsOrS beat.updated_at "" ++ "\n" ∧
    jsOrS (some s) "" = s :=
  ⟨rfl, (escapeCSV_props s).2.1, (escapeCSV_props s).2.2, rfl, by
    unfold jsOrS jsTruthyS
    by_cases h : s = ""
    · simp [h]
    · simp [h]⟩

theorem C3_csv_field_escaping_witness :
    csvNeedsQuote "He said, \"go now\"" = true ∧
    parseCSVField (escapeCSV (some "He said, \"go now\"")) = "He said, \"go now\"" :=
  ⟨by decide,
    (C3_csv_field_escaping "He said, \"go now\"" c3Act c3Beat).2.2.1 (by decide)⟩

/-! ## HTML Projector (`generateHTMLReport`)

The document template is transcribed literally from the source; it is split
into chunks at the template's `${…}` interpolation slots (and, inside the
head, at `</head>`, which the PDF projector's `.replace('</head>', …)`
targets).  `todayLong` stands for the two identical
`new Date().toLocaleDateString('en-US', …)` interpolations. -/

/-- One sidebar navigation item, `` `<li …>…Act ${act.act_no}…</li>` ``. -/
def navItemHTML (act : ActGroup) : String :=
  "\n          <li class=\"nav-item\">\n            <a href=\"#act-" ++ jsIntStr act.act_no
    ++ "\" class=\"nav-link\">Act " ++ jsIntStr act.act_no ++ "</a>\n          </li>\n        "

/-- The sidebar (`sidebarHTML` local of the source). -/
def sidebarHTML (report : Report) : String :=
  "\n    <nav class=\"sidebar\">\n      <h3>Quick Navigation</h3>\n      <ul class=\"nav-list\">\n        <li class=\"nav-item\"><a href=\"#overview\" class=\"nav-link\">Overview</a></li>\n        "
    ++ String.join (report.acts.map navItemHTML)
    ++ "\n      </ul>\n    </nav>\n  "

/-- `` `(Scene ${beat.scene_number})` `` when the scene number is truthy. -/
def sceneParenHTML (v : Option Int) : String :=
  if jsTruthyN v then "(Scene " ++ jsIntStr (v.getD 0) ++ ")" else ""

/-- The conditional `<p><strong>Label:</strong> value</p>` fragment of a beat
entry: emitted only when the value is truthy (the five inline ternaries for
conflict, emotion, location, time, characters). -/
def labeledFieldHTML (label : String) (v : Option String) : String :=
  if jsTruthyS v then
    "<p><strong>" ++ label ++ ":</strong> " ++ v.getD "" ++ "</p>"
  else ""

/-- One beat entry of the act section (the inner `act.beats.map(beat => …)`
template). -/
def beatEntryHTML (beat : BeatView) : String :=
  "\n          <div class=\"beat-entry\">\n            <h2>Beat " ++ jsIntStr beat.beat_number
    ++ " " ++ sceneParenHTML beat.scene_number
    ++ "</h2>\n            <h3>" ++ jsOrS beat.title "Untitled Beat"
    ++ "</h3>\n            <p><strong>Description:</strong> "
    ++ jsOrS beat.description "No description available."
    ++ "</p>\n            " ++ labeledFieldHTML "Conflict" beat.conflict
    ++ "\n            " ++ labeledFieldHTML "Emotion" beat.emotion
    ++ "\n            " ++ labeledFieldHTML "Location" beat.location
    ++ "\n            " ++ labeledFieldHTML "Time" beat.time_of_day
    ++ "\n            " ++ labeledFieldHTML "Characters" beat.characters
    ++ "\n            <hr>\n          </div>\n        "

/-- One act section (the outer `report.acts.map(act => …)` template). -/
def actSectionHTML (todayLong : String) (act : ActGroup) : String :=
  "\n    <div class=\"act-section\" id=\"act-" ++ jsIntStr act.act_no
    ++ "\">\n      <div class=\"act-header\">\n        <div class=\"act-title\">Act "
    ++ jsIntStr act.act_no
    ++ "</div>\n        <div class=\"act-number\">Last updated: " ++ todayLong
    ++ "</div>\n      </div>\n      <div class=\"act-description\">\n        "
    ++ String.join (act.beats.map beatEntryHTML)
    ++ "\n      </div>\n    </div>\n  "

/-- `beatsHTML` local of the source. -/
def beatsHTML (todayLong : String) (report : Report) : String :=
  String.join (report.acts.map (actSectionHTML todayLong))
/-- First half of the report document text before `</head>` (doctype, meta,
title and the first part of the stylesheet), exactly as in the source template. -/
def htmlHeadPart1 : String :=
  "<!DOCTYPE html>\n<html lang=\"en\">\n<head>\n    <meta charset=\"UTF-8\">\n    <meta name=\"viewport\" content=\"width=device-width, initial-scale=1.0\">\n    <title>Ally - Beat Sheets Report</title>\n    <style>\n        * \x7b\n            margin: 0;\n            padding: 0;\n            box-sizing: border-box;\n        \x7d\n\n        body \x7b\n            font-family: 'Segoe UI', Roboto, 'Helvetica Neue', Arial, sans-serif;\n            background: #0d1117;\n            color: #c9d1d9;\n            line-height: 1.6;\n            padding: 2rem;\n            transition: background-color 0.3s ease, color 0.3s ease;\n        \x7d\n\n        .container \x7b\n            max-width: 1200px;\n            margin: 0 auto;\n            display: flex;\n            gap: 2rem;\n        \x7d\n        \n        .sidebar \x7b\n            width: 250px;\n            flex-shrink: 0;\n            position: sticky;\n            top: 2rem;\n            height: fit-content;\n            background: #161b22;\n            border: 1px solid #30363d;\n            border-radius: 6px;\n            padding: 1.5rem;\n        \x7d\n        \n        .sidebar h3 \x7b\n            color: #58a6ff;\n            font-size: 1rem;\n            margin-bottom: 1rem;\n            font-weight: 600;\n        \x7d\n        \n        .nav-list \x7b\n            list-style: none;\n            margin: 0;\n            padding: 0;\n        \x7d\n        \n        .nav-item \x7b\n            margin-bottom: 0.5rem;\n        \x7d\n        \n        .nav-link \x7b\n            color: #8b949e;\n            text-decoration: none;\n            font-size: 0.9rem;\n            display: block;\n            padding: 0.5rem;\n            border-radius: 4px;\n            transition: all 0.2s ease;\n        \x7d\n        \n        .nav-link:hover \x7b\n            background: #21262d;\n            color: #c9d1d9;\n        \x7d\n        \n        .main-content \x7b\n            flex: 1;\n            min-width: 0;\n        \x7d\n\n        .back-link \x7b\n            color: #58a6ff;\n            text-decoration: none;\n            display: inline-block;\n            margin-bottom: 2rem;\n            font-size: 0.9rem;\n        \x7d\n\n        .back-link:hover \x7b\n            text-decoration: underline;\n        \x7d\n\n        .header \x7b\n            border-bottom: 2px solid #21262d;\n            padding-bottom: 1.5rem;\n            margin-bottom: 2rem;\n            display: flex;\n            justify-content: space-between;\n            align-items: flex-start;\n        \x7d\n        \n        .header-content \x7b\n            flex: 1;\n        \x7d\n\n        h1 \x7b\n            font-size: 2rem;\n            font-weight: 600;\n            color: #58a6ff;\n            margin-bottom: 0.5rem;\n        \x7d\n\n        .metadata \x7b\n            color: #8b949e;\n            font-size: 0.9rem;\n        \x7d\n\n        .act-section \x7b\n            background: #161b22;\n            border: 1px solid #30363d;\n            border-radius: 6px;\n            padding: 1.5rem;\n            margin-bottom: 2rem;\n        \x7d\n\n        .act-header \x7b\n"

/-- Second half of the report document text before `</head>`. -/
def htmlHeadPart2 : String :=
  "            display: flex;\n            justify-content: space-between;\n            align-items: baseline;\n            margin-bottom: 1rem;\n            padding-bottom: 0.5rem;\n            border-bottom: 1px solid #21262d;\n        \x7d\n\n        .act-title \x7b\n            font-size: 1.3rem;\n            font-weight: 600;\n            color: #58a6ff;\n        \x7d\n\n        .act-number \x7b\n            color: #f85149;\n            font-size: 0.9rem;\n        \x7d\n\n        .act-description \x7b\n            color: #c9d1d9;\n            font-size: 1rem;\n            line-height: 1.7;\n            transition: color 0.3s ease;\n        \x7d\n\n        .beat-entry \x7b\n            margin-bottom: 2rem;\n            padding: 1rem;\n            background: #0d1117;\n            border-radius: 6px;\n            border: 1px solid #21262d;\n        \x7d\n        \n        .beat-entry h2 \x7b\n            font-size: 1.25rem;\n            font-weight: 600;\n            margin: 0 0 0.75rem 0;\n            padding-bottom: 0.5rem;\n            border-bottom: 1px solid #21262d;\n            color: #c9d1d9;\n        \x7d\n\n        .beat-entry h3 \x7b\n            font-size: 1.1rem;\n            font-weight: 500;\n            margin: 0 0 0.5rem 0;\n            color: #58a6ff;\n        \x7d\n\n        .beat-entry p \x7b\n            margin-bottom: 0.75rem;\n            line-height: 1.6;\n        \x7d\n\n        .beat-entry strong \x7b\n            color: #58a6ff;\n            font-weight: 600;\n        \x7d\n\n        .beat-entry hr \x7b\n            border: none;\n            border-top: 1px solid #21262d;\n            margin: 1.5rem 0 0 0;\n        \x7d\n\n        .stats \x7b\n            background: #0d1117;\n            border: 1px solid #30363d;\n            border-radius: 6px;\n            padding: 1rem;\n            margin-bottom: 2rem;\n            display: grid;\n            grid-template-columns: 1fr 2fr 1fr 2fr;\n            gap: 1rem;\n            transition: background-color 0.3s ease, border-color 0.3s ease;\n        \x7d\n\n        .stat \x7b\n            text-align: center;\n        \x7d\n\n        .stat-value \x7b\n            font-size: 1.5rem;\n            color: #58a6ff;\n            font-weight: 600;\n            transition: color 0.3s ease;\n        \x7d\n\n        .stat-label \x7b\n            color: #8b949e;\n            font-size: 0.85rem;\n            text-transform: uppercase;\n            letter-spacing: 0.5px;\n            transition: color 0.3s ease;\n        \x7d\n\n        @media (max-width: 768px) \x7b\n            body \x7b\n                padding: 1rem;\n            \x7d\n            \n            .container \x7b\n                flex-direction: column;\n                gap: 1rem;\n            \x7d\n            \n            .sidebar \x7b\n                position: static;\n                width: 100%;\n                order: -1;\n            \x7d\n            \n            h1 \x7b\n                font-size: 1.5rem;\n            \x7d\n            \n            .act-section \x7b\n                padding: 1rem;\n            \x7d\n        \x7d\n    </style>\n"

/-- The document text between `</head>` and the `${sidebarHTML}` slot. -/
def htmlBodyOpen : String :=
  "\n<body>\n    <div class=\"container\">\n        "

/-- Document text between the `${sidebarHTML}` slot and the `As of ${…date…}`
interpolation. -/
def htmlMid1 : String :=
  "\n        \n        <main class=\"main-content\">\n            <a href=\"/\" class=\"back-link\">← Back to Beat Sheets</a>\n            \n            <div class=\"header\" id=\"overview\">\n                <div class=\"header-content\">\n                    <h1>ALLY - BEAT SHEETS REPORT</h1>\n                    <div style=\"color: #58a6ff; font-size: 0.9rem; text-align: left;\">As of "

/-- Document text between the date and `${report.summary.total_acts}`. -/
def htmlMid2 : String :=
  "</div>\n                </div>\n                <div style=\"text-align: right;\">\n                    <div style=\"margin-bottom: 0.5rem;\">\n                        <a href=\"/api/reports/beats/csv\" target=\"_blank\" style=\"color: #f85149; text-decoration: none; font-size: 0.9rem; padding: 0.5rem 1rem; border: 1px solid #30363d; border-radius: 4px; background: transparent;\">📄 Download CSV</a>\n                    </div>\n                </div>\n            </div>\n            \n            <div class=\"stats\">\n                <div class=\"stat\">\n                    <div class=\"stat-value\">"

/-- Document text between `total_acts` and `${report.summary.total_beats}`. -/
def htmlMid3 : String :=
  "</div>\n                    <div class=\"stat-label\">Acts</div>\n                </div>\n                <div class=\"stat\">\n                    <div class=\"stat-value\">"

/-- Document text between `total_beats` and the `${beatsHTML}` slot. -/
def htmlMid4 : String :=
  "</div>\n                    <div class=\"stat-label\">Total Beats</div>\n                </div>\n                <div class=\"stat\">\n                    <div class=\"stat-value\">Mark</div>\n                    <div class=\"stat-label\">Director</div>\n                </div>\n                <div class=\"stat\">\n                    <div class=\"stat-value\">MobiCycle Productions</div>\n                    <div class=\"stat-label\">Producer</div>\n                </div>\n            </div>\n        \n            "

/-- Document text after the `${beatsHTML}` slot. -/
def htmlTail : String :=
  "\n            \n        </main>\n    </div>\n</body>\n</html>"

/-- The full html document of `generateHTMLReport`: the chunk literals with
the sidebar, dates, summary numbers and act sections interpolated in the
template's slots. -/
def generateHTMLReport (todayLong : String) (report : Report) : String :=
  htmlHeadPart1 ++ htmlHeadPart2 ++ "</head>" ++ htmlBodyOpen
    ++ sidebarHTML report
    ++ htmlMid1 ++ todayLong
    ++ htmlMid2 ++ jsNatStr report.summary.total_acts
    ++ htmlMid3 ++ jsNatStr report.summary.total_beats
    ++ htmlMid4 ++ beatsHTML todayLong report
    ++ htmlTail

/-! ## Print/PDF Projector (`generatePDFOptimizedHTML`) -/

/-- Replace the first occurrence of `pat` (JS `String.prototype.replace` with
a string pattern), character-list level. -/
def replaceFirstCs (pat sub : List Char) : List Char → List Char
  | [] => []
  | c :: rest =>
    if pat.isPrefixOf (c :: rest) then sub ++ (c :: rest).drop pat.length
    else c :: replaceFirstCs pat sub rest

/-- Replace the first occurrence of `pat` in `s` by `sub`; `s` unchanged when
`pat` does not occur. -/
def replaceFirst (pat sub s : String) : String :=
  String.mk (replaceFirstCs pat.data sub.data s.data)

/-- Index of the first occurrence of `pat`, if any. -/
def findSubIdx? (pat : List Char) : List Char → Option Nat
  | [] => if pat.isEmpty then some 0 else none
  | c :: rest =>
    if pat.isPrefixOf (c :: rest) then some 0
    else (findSubIdx? pat rest).map (· + 1)
/-- The replacement text spliced in for `</head>` (print style overrides plus
the `</head>` itself). -/
def pdfStyleReplacement : String :=
  "\n      <style>\n        .actions \x7b display: none !important; \x7d\n        body \x7b padding: 0 !important; background: white !important; \x7d\n        .container \x7b box-shadow: none !important; \x7d\n      </style>\n    </head>"

/-- The lazy, non-global regex `/<div class="actions">[\s\S]*?<\/div>/`
replaced by `''`: remove from the first `<div class="actions">` through the
next `</div>`; no change when the regex does not match. -/
def removeActionsDiv (s : String) : String :=
  match findSubIdx? "<div class=\"actions\">".data s.data with
  | none => s
  | some i =>
    let after := s.data.drop (i + "<div class=\"actions\">".data.length)
    match findSubIdx? "</div>".data after with
    | none => s
    | some j =>
      String.mk (s.data.take i ++ after.drop (j + "</div>".data.length))

/-- `generatePDFOptimizedHTML`: the HTML projector's output with the print
style block spliced in at `</head>` and the (first) actions div removed. -/
def generatePDFOptimizedHTML (todayLong : String) (report : Report) : String :=
  removeActionsDiv
    (replaceFirst "</head>" pdfStyleReplacement (generateHTMLReport todayLong report))

/-! ## Substring machinery -/

/-- Alias with Bool equation: `isPrefixOf` decides `<+:`. -/
theorem isPrefixOf_true_iff {l m : List Char} : l.isPrefixOf m = true ↔ l <+: m :=
  List.isPrefixOf_iff_prefix

/-- Boolean substring search (the semantics of JS `indexOf`-style matching). -/
def csHasSub (pat : List Char) : List Char → Bool
  | [] => pat.isEmpty
  | c :: rest => pat.isPrefixOf (c :: rest) || csHasSub pat rest

theorem csHasSub_iff (pat : List Char) (l : List Char) :
    csHasSub pat l = true ↔ pat <:+: l := by
  induction l with
  | nil =>
    simp only [csHasSub, List.isEmpty_iff, List.infix_nil]
  | cons c rest ih =>
    simp only [csHasSub, Bool.or_eq_true, ih, List.infix_cons_iff, isPrefixOf_true_iff]

theorem infix_of_append_right {l m n : List Char} (h : l <:+: m) : l <:+: n ++ m := by
  obtain ⟨s, t, rfl⟩ := h
  exact ⟨n ++ s, t, by simp⟩

theorem infix_of_append_left {l m n : List Char} (h : l <:+: m) : l <:+: m ++ n := by
  obtain ⟨s, t, rfl⟩ := h
  exact ⟨s, t ++ n, by simp⟩

/-! ## Claim C4: HTML field escaping -/

/-- A beat whose title carries markup characters. -/
def c4Beat : BeatView :=
  ⟨1, none, some "<script>alert(1)</script>", none, none, none, none, none, none,
    none, none, none⟩

/-- A one-act, one-beat report holding `c4Beat`. -/
def c4Report : Report :=
  ⟨"beats_by_act", "t", ⟨1, 1, [⟨1, none, 1⟩]⟩, [⟨1, 1, none, [c4Beat], 1⟩]⟩

/-- C4 (failing evaluation): the HTML projector interpolates field values raw:
the title `<script>alert(1)</script>` appears verbatim — inside the template's
`<h3>` element — in the projector's output, so a field value does introduce
markup; no escaping of `<`, `>`, `&` or quotes happens anywhere. -/
theorem C4_html_interpolates_raw :
    "<h3><script>alert(1)</script></h3>".data <:+:
      (generateHTMLReport "d" c4Report).data := by
  have h1 : "<h3><script>alert(1)</script></h3>".data <:+:
      (actSectionHTML "d" (⟨1, 1, none, [c4Beat], 1⟩ : ActGroup)).data :=
    (csHasSub_iff _ _).mp (by decide)
  have hb : (beatsHTML "d" c4Report).data =
      (actSectionHTML "d" (⟨1, 1, none, [c4Beat], 1⟩ : ActGroup)).data := by
    show (String.join [actSectionHTML "d" ⟨1, 1, none, [c4Beat], 1⟩]).data = _
    simp [String.join, String.data_append]
  have h2 : "<h3><script>alert(1)</script></h3>".data <:+:
      (beatsHTML "d" c4Report).data := by
    rw [hb]; exact h1
  have h3 : (beatsHTML "d" c4Report).data <:+:
      (generateHTMLReport "d" c4Report).data := by
    refine ⟨htmlHeadPart1.data ++ htmlHeadPart2.data ++ "</head>".data
      ++ htmlBodyOpen.data ++ (sidebarHTML c4Report).data ++ htmlMid1.data
      ++ "d".data ++ htmlMid2.data
      ++ (jsNatStr c4Report.summary.total_acts).data ++ htmlMid3.data
      ++ (jsNatStr c4Report.summary.total_beats).data ++ htmlMid4.data,
      htmlTail.data, ?_⟩
    simp [generateHTMLReport, String.data_append]
  exact h2.trans h3

/-! ## Claim C5: conditional field emission in the HTML projector -/

/-- A beat with a non-null conflict and an empty-string emotion. -/
def c5Beat : BeatView :=
  ⟨1, none, none, none, some "War", some "", none, none, none, none, none, none⟩

/-- C5 (counterexample): emission of a label+value pair is not equivalent to
the value being null/absent — a non-null conflict is emitted, and a non-null
but empty emotion is omitted. -/
theorem C5_emission_not_iff_null :
    (¬ ((labeledFieldHTML "Conflict" c5Beat.conflict ≠ "") ↔ c5Beat.conflict = none)) ∧
    (¬ ((labeledFieldHTML "Emotion" c5Beat.emotion = "") ↔ c5Beat.emotion = none)) := by
  constructor
  · intro h
    have : c5Beat.conflict = none := h.mp (by decide)
    exact absurd this (by decide)
  · intro h
    have : c5Beat.emotion = none := h.mp (by decide)
    exact absurd this (by decide)

/-- C5 (amended): the label+value fragment of each of the five optional beat
fields is emitted iff the value is truthy (non-null and non-empty); when
emitted it is exactly the label with the raw value; a null value contributes
the empty fragment, so no literal "null"/"undefined" text can arise from an
absent field. -/
theorem C5_emission_by_truthiness (label : String) (v : Option String) :
    (labeledFieldHTML label v = "" ↔ jsTruthyS v = false) ∧
    (jsTruthyS v = true →
      labeledFieldHTML label v =
        "<p><strong>" ++ label ++ ":</strong> " ++ v.getD "" ++ "</p>") ∧
    (v = none → labeledFieldHTML label v = "") := by
  cases v with
  | none => simp [labeledFieldHTML, jsTruthyS]
  | some s =>
    by_cases hs : s = ""
    · subst hs
      simp [labeledFieldHTML, jsTruthyS]
    · have htr : jsTruthyS (some s) = true := by simp [jsTruthyS, hs]
      have hne : ("<p><strong>" ++ label ++ ":</strong> " ++ s ++ "</p>" : String) ≠ "" := by
        intro heq
        have hd := congrArg String.data heq
        simp only [String.data_append] at hd
        simp at hd
      refine ⟨?_, ?_, ?_⟩
      · simp only [labeledFieldHTML, htr, if_true, Option.getD_some]
        constructor
        · intro h; exact absurd h hne
        · intro h
          exact absurd h (by decide)
      · intro h
        simp [labeledFieldHTML, htr]
      · intro h; cases h

theorem C5_emission_by_truthiness_witness :
    jsTruthyS (some "War") = true ∧
    labeledFieldHTML "Conflict" (some "War") = "<p><strong>Conflict:</strong> War</p>" :=
  ⟨by decide, (C5_emission_by_truthiness "Conflict" (some "War")).2.1 (by decide)⟩

/-! ## Claim C10: projections distinguish values only up to truthiness -/

/-- Map a JS-falsy empty string to `null`. -/
def normEmptyS (v : Option String) : Option String :=
  if v = some "" then none else v

/-- Map a JS-falsy zero to `null`. -/
def normZeroN (v : Option Int) : Option Int :=
  if v = some 0 then none else v

/-- Replace every empty-string beat field (and zero `scene_number`/`version`)
by `null`. -/
def normalizeBeat (b : BeatView) : BeatView :=
  ⟨b.beat_number, normZeroN b.scene_number, normEmptyS b.title,
    normEmptyS b.description, normEmptyS b.conflict, normEmptyS b.emotion,
    normEmptyS b.location, normEmptyS b.time_of_day, normEmptyS b.characters,
    normZeroN b.version, normEmptyS b.created_at, normEmptyS b.updated_at⟩

/-- Normalize every beat of every act group; the summary and act fields are
untouched. -/
def normalizeReport (r : Report) : Report :=
  { r with acts := r.acts.map (fun g => { g with beats := g.beats.map normalizeBeat }) }

theorem jsTruthyS_normEmptyS (v : Option String) :
    jsTruthyS (normEmptyS v) = jsTruthyS v := by
  cases v with
  | none => rfl
  | some s =>
    by_cases hs : s = "" <;> simp [normEmptyS, jsTruthyS, hs]

theorem jsOrS_normEmptyS (v : Option String) (d : String) :
    jsOrS (normEmptyS v) d = jsOrS v d := by
  cases v with
  | none => rfl
  | some s =>
    by_cases hs : s = "" <;> simp [normEmptyS, jsOrS, jsTruthyS, hs]

theorem jsTruthyN_normZeroN (v : Option Int) :
    jsTruthyN (normZeroN v) = jsTruthyN v := by
  cases v with
  | none => rfl
  | some n =>
    by_cases hn : n = 0 <;> simp [normZeroN, jsTruthyN, hn]

theorem jsNumOrEmpty_normZeroN (v : Option Int) :
    jsNumOrEmpty (normZeroN v) = jsNumOrEmpty v := by
  cases v with
  | none => rfl
  | some n =>
    by_cases hn : n = 0 <;> simp [normZeroN, jsNumOrEmpty, jsTruthyN, hn]

theorem sceneParenHTML_normZeroN (v : Option Int) :
    sceneParenHTML (normZeroN v) = sceneParenHTML v := by
  cases v with
  | none => rfl
  | some n =>
    by_cases hn : n = 0 <;> simp [normZeroN, sceneParenHTML, jsTruthyN, hn]

theorem labeledFieldHTML_normEmptyS (label : String) (v : Option String) :
    labeledFieldHTML label (normEmptyS v) = labeledFieldHTML label v := by
  cases v with
  | none => rfl
  | some s =>
    by_cases hs : s = "" <;> simp [normEmptyS, labeledFieldHTML, jsTruthyS, hs]

theorem beatEntryHTML_normalizeBeat (b : BeatView) :
    beatEntryHTML (normalizeBeat b) = beatEntryHTML b := by
  simp [beatEntryHTML, normalizeBeat, jsOrS_normEmptyS, labeledFieldHTML_normEmptyS,
    sceneParenHTML_normZeroN]

theorem csvRow_normalizeBeat (act : ActGroup) (b : BeatView) :
    csvRow act (normalizeBeat b) = csvRow act b := by
  simp [csvRow, normalizeBeat, jsOrS_normEmptyS, jsNumOrEmpty_normZeroN]

theorem csvRow_beats_irrelevant (g : ActGroup) (beats' : List BeatView) (b : BeatView) :
    csvRow { g with beats := beats' } b = csvRow g b := rfl

/-- C10: replacing every empty-string beat field value — and the number `0`
for `scene_number`/`version` — by `null` leaves both the CSV projector's and
the HTML projector's output unchanged: both projectors distinguish field
values only up to JS truthiness. -/
theorem C10_truthiness_invariance (todayLong : String) (report : Report) :
    generateCSVReport (normalizeReport report) = generateCSVReport report ∧
    generateHTMLReport todayLong (normalizeReport report) =
      generateHTMLReport todayLong report := by
  constructor
  · unfold generateCSVReport normalizeReport
    simp only
    generalize csvHeader = start
    induction report.acts generalizing start with
    | nil => rfl
    | cons g rest ih =>
      simp only [List.map_cons, List.foldl_cons]
      have hinner : ∀ (start' : String),
          (g.beats.map normalizeBeat).foldl
            (fun csv beat => csv ++ csvRow { g with beats := g.beats.map normalizeBeat } beat) start' =
          g.beats.foldl (fun csv beat => csv ++ csvRow g beat) start' := by
        induction g.beats with
        | nil => intro start'; rfl
        | cons b bs ihb =>
          intro start'
          simp only [List.map_cons, List.foldl_cons]
          rw [csvRow_beats_irrelevant, csvRow_normalizeBeat]
          exact ihb _
      rw [hinner]
      exact ih _
  · have hside : sidebarHTML (normalizeReport report) = sidebarHTML report := by
      simp only [sidebarHTML, normalizeReport, List.map_map]
      have h1 : ∀ g ∈ report.acts, (navItemHTML ∘ fun g : ActGroup =>
          { g with beats := g.beats.map normalizeBeat }) g = navItemHTML g :=
        fun g _ => rfl
      rw [List.map_congr_left h1]
    have hbeats : beatsHTML todayLong (normalizeReport report) =
        beatsHTML todayLong report := by
      simp only [beatsHTML, normalizeReport, List.map_map]
      have h1 : ∀ g ∈ report.acts, (actSectionHTML todayLong ∘ fun g : ActGroup =>
          { g with beats := g.beats.map normalizeBeat }) g =
          actSectionHTML todayLong g := by
        intro g _
        show actSectionHTML todayLong { g with beats := g.beats.map normalizeBeat } =
          actSectionHTML todayLong g
        simp only [actSectionHTML, List.map_map]
        have h2 : ∀ b ∈ g.beats, (beatEntryHTML ∘ normalizeBeat) b = beatEntryHTML b :=
          fun b _ => beatEntryHTML_normalizeBeat b
        rw [List.map_congr_left h2]
      rw [List.map_congr_left h1]
    unfold generateHTMLReport
    rw [hside, hbeats]
    rfl

/-! ## Replacement machinery for the Print projector (claim C6) -/

theorem csHasSub_nil_of_ne_nil {pat : List Char} (h : pat ≠ []) :
    csHasSub pat [] = false := by
  simp [csHasSub, List.isEmpty_iff, h]

theorem csHasSub_length_le {pat l : List Char} (h : csHasSub pat l = true) :
    pat.length ≤ l.length :=
  ((csHasSub_iff pat l).mp h).length_le

theorem isPrefixOf_append_ext {p l y : List Char} (h : p.isPrefixOf l = true) :
    p.isPrefixOf (l ++ y) = true :=
  isPrefixOf_true_iff.mpr ((isPrefixOf_true_iff.mp h).trans (List.prefix_append l y))

theorem prefix_of_prefix_append {p l y : List Char} (h : p <+: l ++ y)
    (hlen : p.length ≤ l.length) : p <+: l := by
  have ht := List.prefix_iff_eq_take.mp h
  rw [List.take_append_of_le_length hlen] at ht
  exact List.prefix_iff_eq_take.mpr ht

theorem prefix_split {p l m : List Char} (h : p <+: l ++ m)
    (hlen : l.length ≤ p.length) :
    p.take l.length = l ∧ p.drop l.length <+: m := by
  obtain ⟨t, ht⟩ := h
  constructor
  · have htake := congrArg (List.take l.length) ht
    rw [List.take_append_of_le_length hlen, List.take_left] at htake
    exact htake
  · have hdrop := congrArg (List.drop l.length) ht
    rw [List.drop_append_of_le_length hlen, List.drop_left] at hdrop
    exact ⟨t, hdrop⟩

theorem replaceFirstCs_append_left {pat sub : List Char} (hne : pat ≠ []) :
    ∀ X Y, csHasSub pat X = true →
      replaceFirstCs pat sub (X ++ Y) = replaceFirstCs pat sub X ++ Y := by
  intro X
  induction X with
  | nil =>
    intro Y h
    rw [csHasSub_nil_of_ne_nil hne] at h
    cases h
  | cons c X' ih =>
    intro Y h
    rw [csHasSub] at h
    by_cases hp : pat.isPrefixOf (c :: X') = true
    · have hlen : pat.length ≤ (c :: X').length :=
        (isPrefixOf_true_iff.mp hp).length_le
      have hp2 : pat.isPrefixOf (c :: (X' ++ Y)) = true := by
        have := isPrefixOf_append_ext (y := Y) hp
        simpa using this
      show replaceFirstCs pat sub (c :: (X' ++ Y)) = replaceFirstCs pat sub (c :: X') ++ Y
      simp only [replaceFirstCs]
      rw [if_pos hp2, if_pos hp, List.append_assoc]
      congr 1
      have hdrop : (c :: X' ++ Y).drop pat.length = (c :: X').drop pat.length ++ Y :=
        List.drop_append_of_le_length hlen
      exact hdrop
    · have hs' : csHasSub pat X' = true := by
        rw [Bool.or_eq_true] at h
        rcases h with h' | h'
        · exact absurd h' hp
        · exact h'
      have hp2 : pat.isPrefixOf (c :: (X' ++ Y)) = false := by
        by_contra hcon
        rw [Bool.not_eq_false] at hcon
        have hpre : pat <+: (c :: X') ++ Y := by
          simpa using isPrefixOf_true_iff.mp hcon
        have hlen : pat.length ≤ (c :: X').length := by
          have := csHasSub_length_le hs'
          simp only [List.length_cons]
          omega
        exact absurd (isPrefixOf_true_iff.mpr (prefix_of_prefix_append hpre hlen)) (by simp [hp])
      show replaceFirstCs pat sub (c :: (X' ++ Y)) = replaceFirstCs pat sub (c :: X') ++ Y
      simp only [replaceFirstCs]
      rw [if_neg (by simp [hp2]), if_neg (by simp [hp])]
      rw [List.cons_append]
      exact congrArg (List.cons c) (ih Y hs')

/-- No proper suffix of `pat` is again a prefix of `pat` (precludes matches
spanning into a planted occurrence). -/
def selfSpanFree (pat : List Char) : Bool :=
  (List.range pat.length).all fun k => decide (k = 0) || !((pat.drop k).isPrefixOf pat)

theorem replaceFirstCs_splice {pat sub : List Char} (hne : pat ≠ [])
    (hself : selfSpanFree pat = true) :
    ∀ A B, csHasSub pat A = false →
      replaceFirstCs pat sub (A ++ (pat ++ B)) = A ++ (sub ++ B) := by
  intro A
  induction A with
  | nil =>
    intro B _
    simp only [List.nil_append]
    cases hpat : pat with
    | nil => exact absurd hpat hne
    | cons p ps =>
      show replaceFirstCs (p :: ps) sub (p :: (ps ++ B)) = sub ++ B
      simp only [replaceFirstCs]
      rw [if_pos (by
        have hself2 : (p :: ps).isPrefixOf ((p :: ps) ++ B) = true :=
          isPrefixOf_true_iff.mpr (List.prefix_append _ _)
        simp only [List.cons_append] at hself2
        exact hself2)]
      have : (p :: (ps ++ B)) = (p :: ps) ++ B := by simp
      rw [this, List.drop_left]
  | cons c A' ih =>
    intro B hno
    rw [csHasSub, Bool.or_eq_false_iff] at hno
    have hhead : pat.isPrefixOf (c :: (A' ++ (pat ++ B))) = false := by
      by_contra hcon
      rw [Bool.not_eq_false] at hcon
      have hpre : pat <+: (c :: A') ++ (pat ++ B) := by
        simpa using isPrefixOf_true_iff.mp hcon
      by_cases hlen : pat.length ≤ (c :: A').length
      · exact absurd (isPrefixOf_true_iff.mpr (prefix_of_prefix_append hpre hlen))
          (by simp [hno.1])
      · push_neg at hlen
        have hsplit := prefix_split hpre (by omega)
        have hdprefix : pat.drop (c :: A').length <+: pat :=
          prefix_of_prefix_append hsplit.2 (by simp)
        have hk := List.all_eq_true.mp hself (c :: A').length
          (List.mem_range.mpr hlen)
        rw [Bool.or_eq_true] at hk
        rcases hk with hk | hk
        · simp at hk
        · rw [Bool.not_eq_eq_eq_not] at hk
          simp only [Bool.not_true] at hk
          rw [isPrefixOf_true_iff.mpr hdprefix] at hk
          cases hk
    show replaceFirstCs pat sub (c :: (A' ++ (pat ++ B))) = c :: (A' ++ (sub ++ B))
    simp only [replaceFirstCs]
    rw [if_neg (by simp [hhead])]
    exact congrArg (List.cons c) (ih B hno.2)

theorem csHasSub_append_false {pat X Y : List Char}
    (hX : csHasSub pat X = false) (hY : csHasSub pat Y = false)
    (hspan : ∀ k, 0 < k → k < pat.length →
      ¬(pat.take k <:+ X ∧ pat.drop k <+: Y)) :
    csHasSub pat (X ++ Y) = false := by
  by_contra hcon
  rw [Bool.not_eq_false] at hcon
  obtain ⟨s, t, hst⟩ := (csHasSub_iff _ _).mp hcon
  rw [List.append_assoc] at hst
  by_cases h1 : s.length + pat.length ≤ X.length
  · have hpre : s ++ pat <+: X ++ Y := ⟨t, by rw [List.append_assoc]; exact hst⟩
    have hsp : s ++ pat <+: X :=
      prefix_of_prefix_append hpre (by simp; omega)
    obtain ⟨r, hr⟩ := hsp
    have : pat <:+: X := ⟨s, r, by rw [← hr, List.append_assoc]⟩
    rw [(csHasSub_iff pat X).mpr this] at hX
    cases hX
  · by_cases h2 : X.length ≤ s.length
    · have hdrop := congrArg (List.drop X.length) hst
      rw [List.drop_append_of_le_length h2, List.drop_left] at hdrop
      have : pat <:+: Y := ⟨s.drop X.length, t, by rw [List.append_assoc]; exact hdrop⟩
      rw [(csHasSub_iff pat Y).mpr this] at hY
      cases hY
    · push_neg at h1 h2
      have hk0 : 0 < X.length - s.length := by omega
      have hklt : X.length - s.length < pat.length := by omega
      refine hspan (X.length - s.length) hk0 hklt ⟨?_, ?_⟩
      · have htake := congrArg (List.take X.length) hst
        rw [List.take_append_eq_append_take, List.take_of_length_le (by omega),
          List.take_append_of_le_length (by omega), List.take_left] at htake
        exact ⟨s, htake⟩
      · have hdrop := congrArg (List.drop X.length) hst
        rw [List.drop_append_eq_append_drop, List.drop_eq_nil_of_le (by omega),
          List.nil_append, List.drop_append_of_le_length (by omega),
          List.drop_left] at hdrop
        exact ⟨t, hdrop⟩

theorem findSubIdx?_eq_none {pat l : List Char} (h : csHasSub pat l = false) :
    findSubIdx? pat l = none := by
  induction l with
  | nil =>
    rw [csHasSub] at h
    simp [findSubIdx?, h]
  | cons c rest ih =>
    rw [csHasSub, Bool.or_eq_false_iff] at h
    simp [findSubIdx?, h.1, ih h.2]

theorem removeActionsDiv_eq_self {s : String}
    (h : csHasSub "<div class=\"actions\">".data s.data = false) :
    removeActionsDiv s = s := by
  unfold removeActionsDiv
  rw [findSubIdx?_eq_none h]

/-- Boundary checker: no occurrence of `pat` can straddle the boundary
between `x` and a list starting with `yh`. -/
def noSpanB (pat x yh : List Char) : Bool :=
  (List.range pat.length).all fun k =>
    decide (k = 0) || !((pat.take k).isSuffixOf x && (pat.drop k).isPrefixOf yh)

theorem span_refute {pat X Y : List Char} (n : Nat) (hn : pat.length ≤ n)
    (h : noSpanB pat X (Y.take n) = true) :
    ∀ k, 0 < k → k < pat.length → ¬(pat.take k <:+ X ∧ pat.drop k <+: Y) := by
  rintro k hk0 hklt ⟨hsuf, hpre⟩
  have hk := List.all_eq_true.mp h k (List.mem_range.mpr hklt)
  rw [Bool.or_eq_true] at hk
  rcases hk with hk' | hk'
  · simp at hk'
    omega
  · rw [Bool.not_eq_eq_eq_not] at hk'
    simp only [Bool.not_true] at hk'
    rw [Bool.and_eq_false_iff] at hk'
    have hA : (pat.take k).isSuffixOf X = true := List.isSuffixOf_iff_suffix.mpr hsuf
    have hpre' : pat.drop k <+: Y.take n := by
      have hq := List.prefix_iff_eq_take.mp hpre
      refine List.prefix_iff_eq_take.mpr ?_
      rw [List.take_take]
      have hmin : min (pat.drop k).length n = (pat.drop k).length := by
        simp only [List.length_drop]
        omega
      rw [hmin]
      exact hq
    have hB : (pat.drop k).isPrefixOf (Y.take n) = true := isPrefixOf_true_iff.mpr hpre'
    rcases hk' with hk' | hk'
    · rw [hA] at hk'; cases hk'
    · rw [hB] at hk'; cases hk'

/-! ## Claim C6: the Print projector versus the HTML projector -/

/-- A plain one-beat report for exercising the PDF pipeline. -/
def c6Report : Report :=
  ⟨"beats_by_act", "t", ⟨1, 1, [⟨1, none, 1⟩]⟩,
    [⟨1, 1, none, [⟨1, none, some "T", none, none, none, none, none, none,
      none, none, none⟩], 1⟩]⟩

/-- Everything of the report document that follows `</head>`. -/
def htmlAfterHead (todayLong : String) (report : Report) : String :=
  htmlBodyOpen ++ sidebarHTML report ++ htmlMid1 ++ todayLong
    ++ htmlMid2 ++ jsNatStr report.summary.total_acts
    ++ htmlMid3 ++ jsNatStr report.summary.total_beats
    ++ htmlMid4 ++ beatsHTML todayLong report ++ htmlTail

theorem generateHTMLReport_split (todayLong : String) (report : Report) :
    (generateHTMLReport todayLong report).data =
      (htmlHeadPart1.data ++ htmlHeadPart2.data) ++
        ("</head>".data ++ (htmlAfterHead todayLong report).data) := by
  simp [generateHTMLReport, htmlAfterHead, String.data_append, List.append_assoc]

theorem headparts_no_headclose :
    csHasSub "</head>".data (htmlHeadPart1.data ++ htmlHeadPart2.data) = false :=
  csHasSub_append_false (by decide) (by decide)
    (span_refute 7 (by decide) (by decide))

/-- The first `.replace` of `generatePDFOptimizedHTML` splices the print style
block in place of the document's first `</head>` and changes nothing else. -/
theorem replaceFirst_headSplice (todayLong : String) (report : Report) :
    (replaceFirst "</head>" pdfStyleReplacement (generateHTMLReport todayLong report)).data =
      (htmlHeadPart1.data ++ htmlHeadPart2.data) ++
        (pdfStyleReplacement.data ++ (htmlAfterHead todayLong report).data) := by
  show replaceFirstCs "</head>".data pdfStyleReplacement.data
    (generateHTMLReport todayLong report).data = _
  rw [generateHTMLReport_split]
  exact replaceFirstCs_splice (by decide) (by decide) _ _ headparts_no_headclose

theorem c6_no_actions_aux1 :
    csHasSub "<div class=\"actions\">".data
      (pdfStyleReplacement.data ++ (htmlAfterHead "d" c6Report).data) = false :=
  csHasSub_append_false (by decide) (by decide)
    (span_refute 21 (by decide) (by decide))

theorem c6_no_actions_aux2 :
    csHasSub "<div class=\"actions\">".data
      (htmlHeadPart2.data ++
        (pdfStyleReplacement.data ++ (htmlAfterHead "d" c6Report).data)) = false :=
  csHasSub_append_false (by decide) c6_no_actions_aux1
    (span_refute 21 (by decide) (by decide))

/-- The assembled print document for the concrete report contains no
`<div class="actions">`, so the second `.replace` of the PDF projector does
nothing. -/
theorem c6_no_actions :
    csHasSub "<div class=\"actions\">".data
      ((htmlHeadPart1.data ++ htmlHeadPart2.data) ++
        (pdfStyleReplacement.data ++ (htmlAfterHead "d" c6Report).data)) = false := by
  rw [List.append_assoc]
  exact csHasSub_append_false (by decide) c6_no_actions_aux2
    (span_refute 21 (by decide) (by decide))

/-- C6 (counterexample): on a concrete report, the Print projector's output
still contains the structural sidebar navigation and the Download CSV action
button — neither is removed, contradicting the claim that they are. -/
theorem C6_pdf_retains_sidebar :
    "<nav class=\"sidebar\">".data <:+: (generatePDFOptimizedHTML "d" c6Report).data ∧
    "Download CSV".data <:+: (generatePDFOptimizedHTML "d" c6Report).data := by
  have hpdf : (generatePDFOptimizedHTML "d" c6Report).data =
      (htmlHeadPart1.data ++ htmlHeadPart2.data) ++
        (pdfStyleReplacement.data ++ (htmlAfterHead "d" c6Report).data) := by
    unfold generatePDFOptimizedHTML
    rw [removeActionsDiv_eq_self (by
      rw [replaceFirst_headSplice]
      exact c6_no_actions)]
    exact replaceFirst_headSplice "d" c6Report
  rw [hpdf]
  constructor
  · have h1 : "<nav class=\"sidebar\">".data <:+: (sidebarHTML c6Report).data :=
      (csHasSub_iff _ _).mp (by decide)
    have h2 : (sidebarHTML c6Report).data <:+: (htmlAfterHead "d" c6Report).data := by
      refine ⟨htmlBodyOpen.data,
        htmlMid1.data ++ "d".data ++ htmlMid2.data
          ++ (jsNatStr c6Report.summary.total_acts).data ++ htmlMid3.data
          ++ (jsNatStr c6Report.summary.total_beats).data ++ htmlMid4.data
          ++ (beatsHTML "d" c6Report).data ++ htmlTail.data, ?_⟩
      simp [htmlAfterHead, String.data_append, List.append_assoc]
    exact infix_of_append_right (infix_of_append_right (h1.trans h2))
  · have h1 : "Download CSV".data <:+: htmlMid2.data :=
      (csHasSub_iff _ _).mp (by decide)
    have h2 : htmlMid2.data <:+: (htmlAfterHead "d" c6Report).data := by
      refine ⟨htmlBodyOpen.data ++ (sidebarHTML c6Report).data
          ++ htmlMid1.data ++ "d".data,
        (jsNatStr c6Report.summary.total_acts).data ++ htmlMid3.data
          ++ (jsNatStr c6Report.summary.total_beats).data ++ htmlMid4.data
          ++ (beatsHTML "d" c6Report).data ++ htmlTail.data, ?_⟩
      simp [htmlAfterHead, String.data_append, List.append_assoc]
    exact infix_of_append_right (infix_of_append_right (h1.trans h2))

/-- C6 (amended): the Print projector is a pure post-processing transform of
the HTML projector's output: it splices the print style block (hiding any
`actions` class, white background, no padding) in place of the document's
first `</head>` and strips the first `<div class="actions">…</div>` region —
and since the HTML projector emits no such markup of its own, on any document
free of that pattern the transform changes nothing else: all data content
after the head, the sidebar navigation included, is retained verbatim. -/
theorem C6_pdf_is_style_splice (todayLong : String) (report : Report)
    (hno : csHasSub "<div class=\"actions\">".data
        ((htmlHeadPart1.data ++ htmlHeadPart2.data) ++
          (pdfStyleReplacement.data ++ (htmlAfterHead todayLong report).data)) = false) :
    (generatePDFOptimizedHTML todayLong report).data =
      (htmlHeadPart1.data ++ htmlHeadPart2.data) ++
        (pdfStyleReplacement.data ++ (htmlAfterHead todayLong report).data) ∧
    (sidebarHTML report).data <:+: (generatePDFOptimizedHTML todayLong report).data := by
  have hpdf : (generatePDFOptimizedHTML todayLong report).data =
      (htmlHeadPart1.data ++ htmlHeadPart2.data) ++
        (pdfStyleReplacement.data ++ (htmlAfterHead todayLong report).data) := by
    unfold generatePDFOptimizedHTML
    rw [removeActionsDiv_eq_self (by
      rw [replaceFirst_headSplice]
      exact hno)]
    exact replaceFirst_headSplice todayLong report
  refine ⟨hpdf, ?_⟩
  rw [hpdf]
  have h2 : (sidebarHTML report).data <:+: (htmlAfterHead todayLong report).data := by
    refine ⟨htmlBodyOpen.data,
      htmlMid1.data ++ todayLong.data ++ htmlMid2.data
        ++ (jsNatStr report.summary.total_acts).data ++ htmlMid3.data
        ++ (jsNatStr report.summary.total_beats).data ++ htmlMid4.data
        ++ (beatsHTML todayLong report).data ++ htmlTail.data, ?_⟩
    simp [htmlAfterHead, String.data_append, List.append_assoc]
  exact infix_of_append_right (infix_of_append_right h2)

theorem C6_pdf_is_style_splice_witness :
    csHasSub "<div class=\"actions\">".data
        ((htmlHeadPart1.data ++ htmlHeadPart2.data) ++
          (pdfStyleReplacement.data ++ (htmlAfterHead "d" c6Report).data)) = false ∧
    (generatePDFOptimizedHTML "d" c6Report).data =
      (htmlHeadPart1.data ++ htmlHeadPart2.data) ++
        (pdfStyleReplacement.data ++ (htmlAfterHead "d" c6Report).data) :=
  ⟨c6_no_actions, (C6_pdf_is_style_splice "d" c6Report c6_no_actions).1⟩

/-! ## Responses and the report request handler (claim C7)

`utils.js`'s `jsonResponse` serializes its data argument with
`JSON.stringify(data, null, 2)`; the model carries the JSON value itself in
the response body (stringification is injective on this value type), and
elides the CORS / content-disposition headers, which no claim concerns. -/

/-- A JSON value (the shape `JSON.stringify` receives). -/
inductive Json where
  | null : Json
  | str : String → Json
  | num : Int → Json
  | arr : List Json → Json
  | obj : List (String × Json) → Json

/-- A response body: a JSON payload (of `jsonResponse`) or a text document. -/
inductive BodyV where
  | jsonBody : Json → BodyV
  | textBody : String → BodyV

/-- The parts of a Worker `Response` the claims speak about. -/
structure Response where
  status : Nat
  contentType : String
  body : BodyV

/-- `jsonResponse(data, status)` from `utils.js`. -/
def jsonResponse (data : Json) (status : Nat) : Response :=
  ⟨status, "application/json", .jsonBody data⟩

def jsonOptS : Option String → Json
  | none => .null
  | some s => .str s

def jsonOptN : Option Int → Json
  | none => .null
  | some n => .num n

/-- JSON encoding of a beat view (the JSON projector is the identity on the
report model). -/
def beatViewJson (b : BeatView) : Json :=
  .obj [("beat_number", .num b.beat_number), ("scene_number", jsonOptN b.scene_number),
    ("title", jsonOptS b.title), ("description", jsonOptS b.description),
    ("conflict", jsonOptS b.conflict), ("emotion", jsonOptS b.emotion),
    ("location", jsonOptS b.location), ("time_of_day", jsonOptS b.time_of_day),
    ("characters", jsonOptS b.characters), ("version", jsonOptN b.version),
    ("created_at", jsonOptS b.created_at), ("updated_at", jsonOptS b.updated_at)]

def actGroupJson (g : ActGroup) : Json :=
  .obj [("act_no", .num g.act_no), ("act_id", .num g.act_id),
    ("act_title", jsonOptS g.act_title),
    ("beats", .arr (g.beats.map beatViewJson)),
    ("beat_count", .num (g.beat_count : Int))]

def reportJson (r : Report) : Json :=
  .obj [("report_type", .str r.report_type), ("generated_at", .str r.generated_at),
    ("summary", .obj [("total_acts", .num (r.summary.total_acts : Int)),
      ("total_beats", .num (r.summary.total_beats : Int)),
      ("beats_per_act", .arr (r.summary.beats_per_act.map (fun e =>
        .obj [("act_no", .num e.act_no), ("act_title", jsonOptS e.act_title),
          ("beat_count", .num (e.beat_count : Int))])))]),
    ("acts", .arr (r.acts.map actGroupJson))]

/-- The report formats of `/api/reports/*`. -/
inductive ReportFormat where
  | json | html | csv | pdf
deriving DecidableEq

/-- Result of `generateBeatReport(env, format)`: the report object for the
JSON format, rendered text otherwise. -/
inductive ReportOutput where
  | model : Report → ReportOutput
  | text : String → ReportOutput

/-- `generateBeatReport(env, format)` in full: run the aggregate query (`db`
is its outcome), group, dispatch on the format; a query failure is caught and
rethrown as `Failed to generate report: <message>`. -/
def generateBeatReportFmt (nowIso todayLong : String)
    (db : Except String (List BeatRow)) (format : ReportFormat) :
    Except String ReportOutput :=
  match db with
  | .error msg => .error ("Failed to generate report: " ++ msg)
  | .ok rows =>
    let report := generateBeatReport nowIso rows
    match format with
    | .csv => .ok (.text (generateCSVReport report))
    | .html => .ok (.text (generateHTMLReport todayLong report))
    | .pdf => .ok (.text (generatePDFOptimizedHTML todayLong report))
    | .json => .ok (.model report)

/-- `handleReportRequest`: 200 responses per format on success; on any error,
`jsonResponse({error: 'Report generation failed', message}, 500)` — for every
format, the HTML one included. -/
def handleReportRequest (nowIso todayLong : String)
    (db : Except String (List BeatRow)) (format : ReportFormat) : Response :=
  match generateBeatReportFmt nowIso todayLong db format with
  | .error msg =>
    jsonResponse (.obj [("error", .str "Report generation failed"),
      ("message", .str msg)]) 500
  | .ok output =>
    match output with
    | .text s =>
      if format = .csv then ⟨200, "text/csv", .textBody s⟩
      else ⟨200, "text/html", .textBody s⟩
    | .model r => jsonResponse (reportJson r) 200

/-- A complete HTML document body, as every page of this worker produces one:
text starting with the doctype. -/
def isHtmlDocBody : BodyV → Bool
  | .textBody s => "<!DOCTYPE html>".data.isPrefixOf s.data
  | _ => false

/-- C7 (counterexample): when the Row Source raises, the HTML report path
returns status 500 whose body is a JSON error object, not a complete
well-formed HTML document as the claim states. -/
theorem C7_html_error_body_not_html :
    (handleReportRequest "n" "d" (.error "boom") .html).status = 500 ∧
    (handleReportRequest "n" "d" (.error "boom") .html).contentType = "application/json" ∧
    isHtmlDocBody (handleReportRequest "n" "d" (.error "boom") .html).body = false :=
  ⟨rfl, rfl, rfl⟩

/-- C7 (amended): if the Row Source query raises during report aggregation,
then every report path — JSON and HTML alike — responds with status 500 and a
JSON error body carrying the message `Failed to generate report: <message>`;
the HTML path does not render an HTML document. -/
theorem C7_error_paths (nowIso todayLong msg : String) (format : ReportFormat) :
    handleReportRequest nowIso todayLong (.error msg) format =
      jsonResponse (.obj [("error", .str "Report generation failed"),
        ("message", .str ("Failed to generate report: " ++ msg))]) 500 := rfl

/-! ## The all-beats page (claim C8) -/

/-- One row of the all-beats query (`beat_number`, `scene_number`, `title`,
`description`, `act_no`, `act_title`). -/
structure AllBeatsRow where
  beat_number : Int
  scene_number : Option Int
  title : Option String
  description : Option String
  act_no : Int
  act_title : Option String
deriving DecidableEq, Repr

/-- A JavaScript runtime error. -/
inductive JsErr where
  | referenceError : String → JsErr
deriving DecidableEq, Repr

/-- The message of a thrown JS error. -/
def jsErrMessage : JsErr → String
  | .referenceError name => name ++ " is not defined"

/-- Raw template interpolation of a nullable string: JS renders `null` as the
text "null". -/
def jsInterpS : Option String → String
  | none => "null"
  | some s => s

/-- One group of `beatsByAct` (`{ title: beat.act_title, beats: [] }`). -/
structure ABGroup where
  title : Option String
  beats : List AllBeatsRow
deriving DecidableEq, Repr

/-- Push a row into the (unique) group keyed by `key`. -/
def abPush (key : Int) (b : AllBeatsRow) :
    List (Int × ABGroup) → List (Int × ABGroup)
  | [] => []
  | (k, g) :: rest =>
    if k == key then (k, ⟨g.title, g.beats ++ [b]⟩) :: rest
    else (k, g) :: abPush key b rest

/-- One `beats.results.forEach` iteration building `beatsByAct`.  The JS
object is keyed by the numeric `act_no` (integer-like keys, which JS
enumerates in ascending numeric order; the query orders rows by `act_no`, so
insertion order and numeric order coincide and an insertion-ordered
association list is a faithful model). -/
def abStep (data : List (Int × ABGroup)) (b : AllBeatsRow) : List (Int × ABGroup) :=
  let ensured :=
    if data.any (fun p => p.1 == b.act_no) then data
    else data ++ [(b.act_no, ⟨b.act_title, []⟩)]
  abPush b.act_no b ensured

/-- The `<div class="act-divider">` heading (raw `${act.title}`). -/
def abDividerHTML (title : Option String) : String :=
  "<div class=\"act-divider\"><h2>" ++ jsInterpS title ++ "</h2></div>"

/-- One beat card of the all-beats page. -/
def abCardHTML (actNo : Int) (title : Option String) (b : AllBeatsRow) : String :=
  "\n            <div class=\"beat-card\">\n              <a href=\"/ally/act/"
    ++ jsIntStr actNo ++ "/beat/" ++ jsIntStr b.beat_number
    ++ "\">\n                <h3>Beat " ++ jsIntStr b.beat_number ++ " "
    ++ sceneParenHTML b.scene_number ++ "</h3>\n                <p>"
    ++ jsOrS b.title ("Beat " ++ jsIntStr b.beat_number ++ " from " ++ jsInterpS title)
    ++ "</p>\n              </a>\n            </div>\n          "

/-- The `allBeatCards` string computed inside the `try` block: the empty
state, or per act a divider followed by its beat cards. -/
def buildAllBeatCards (rows : List AllBeatsRow) : String :=
  if rows.length = 0 then
    "\n        <div class=\"no-content\">\n          <h2>No Beats Found</h2>\n          <p>There are currently no beats in the database. Add some beats to see them here.</p>\n        </div>\n      "
  else
    let beatsByAct := rows.foldl abStep []
    beatsByAct.foldl
      (fun acc p =>
        p.2.beats.foldl (fun acc b => acc ++ abCardHTML p.1 p.2.title b)
          (acc ++ abDividerHTML p.2.title))
      ""

/-- `generatePageHeader(title, subtitle, subtitleColor = '#888')`. -/
def generatePageHeader (title subtitle subtitleColor : String) : String :=
  "\n    <div class=\"header\">\n        <h1>" ++ title
    ++ "</h1>\n        <p class=\"subtitle\" style=\"color: " ++ subtitleColor
    ++ "; font-weight: 600;\">" ++ subtitle ++ "</p>\n    </div>\n  "
/-! Literal chunks of the all-beats page template. -/

def abLit0a : String :=
  "<!DOCTYPE html>\n<html lang=\"en\">\n<head>\n    <meta charset=\"UTF-8\">\n    <meta name=\"viewport\" content=\"width=device-width, initial-scale=1.0\">\n    <title>ALLY - All Beats</title>\n    <style>\n        * \x7b\n            margin: 0;\n            padding: 0;\n            box-sizing: border-box;\n        \x7d\n\n        body \x7b\n            font-family: -apple-system, BlinkMacSystemFont, 'Segoe UI', Roboto, Oxygen, Ubuntu, Cantarell, sans-serif;\n            background: #0a0a0a;\n            min-height: 100vh;\n            color: #fff;\n            padding: 2rem;\n        \x7d\n\n        .container \x7b\n            max-width: 1200px;\n            margin: 0 auto;\n        \x7d\n\n        .header \x7b\n            text-align: center;\n            margin-bottom: 3rem;\n            padding-bottom: 2rem;\n            border-bottom: 1px solid #333;\n        \x7d\n\n        .header h1 \x7b\n            font-size: 3rem;\n            font-weight: 300;\n            margin-bottom: 1rem;\n            font-family: Georgia, 'Times New Roman', serif;\n            letter-spacing: 2px;\n        \x7d\n\n        .header .subtitle \x7b\n            font-size: 1.2rem;\n            color: #888;\n        \x7d\n\n        .nav \x7b\n            margin-bottom: 2rem;\n        \x7d\n\n        .nav a \x7b\n            color: #fff;\n            text-decoration: none;\n            font-size: 1rem;\n            padding: 0.5rem 1rem;\n            border-radius: 4px;\n            transition: background 0.2s;\n        \x7d\n\n        .nav a:hover \x7b\n            background: #333;\n        \x7d\n\n        .act-divider \x7b\n"

def abLit0b : String :=
  "            margin: 3rem 0 2rem 0;\n            text-align: center;\n            border-top: 2px solid #333;\n            padding-top: 2rem;\n        \x7d\n\n        .act-divider:first-of-type \x7b\n            margin-top: 0;\n            border-top: none;\n            padding-top: 0;\n        \x7d\n\n        .act-divider h2 \x7b\n            font-size: 1.8rem;\n            color: #667eea;\n            font-weight: 600;\n            margin-bottom: 1rem;\n        \x7d\n\n        .beats-grid \x7b\n            display: grid;\n            grid-template-columns: repeat(auto-fit, minmax(300px, 1fr));\n            gap: 2rem;\n            margin-bottom: 2rem;\n        \x7d\n\n        .beat-card \x7b\n            background: #111;\n            border: 1px solid #333;\n            border-radius: 8px;\n            padding: 2rem;\n            transition: border-color 0.2s;\n        \x7d\n\n        .beat-card:hover \x7b\n            border-color: #555;\n        \x7d\n\n        .beat-card h3 \x7b\n            font-size: 1.5rem;\n            margin-bottom: 1rem;\n            color: #fff;\n        \x7d\n\n        .beat-card p \x7b\n            color: #ccc;\n            line-height: 1.6;\n        \x7d\n\n        .beat-card a \x7b\n            color: inherit;\n            text-decoration: none;\n        \x7d\n\n        @media (max-width: 768px) \x7b\n            .header h1 \x7b\n                font-size: 2rem;\n            \x7d\n            \n            .beats-grid \x7b\n                grid-template-columns: 1fr;\n            \x7d\n        \x7d\n    </style>\n</head>\n<body>\n    <div class=\"container\">\n        "

def abLit1 : String :=
  "\n        \n        <div class=\"nav\">\n            <a href=\"/ally\">&larr; Back to Acts</a>\n        </div>\n\n        <div class=\"beats-grid\">\n            "

def abLit2 : String :=
  "\n        </div>\n    </div>\n</body>\n</html>"

/-- The all-beats page document (`generateAllBeatsPage`'s `html` template):
header via `generatePageHeader('ALLY', 'All Beats - Complete Beat Sheet
Overview')`, then the card area interpolating `allBeatCards`. -/
def allBeatsTemplate (allBeatCards : String) : String :=
  abLit0a ++ abLit0b
    ++ generatePageHeader "ALLY" "All Beats - Complete Beat Sheet Overview" "#888"
    ++ abLit1 ++ allBeatCards ++ abLit2

/-- `generateAllBeatsPage`.  In the source, `let allBeatCards` is declared
inside the `try` block, so it is block-scoped there (the worker is an ES
module, hence strict mode).  The success path computes the card string and
then leaves the block, discarding the binding; the catch path assigns the
undeclared identifier `allBeatCards`, itself a ReferenceError in strict mode;
and the later `const html = \`… ${allBeatCards} …\`` reads an undeclared
identifier.  The model makes the block's contribution to the outer scope
explicit (`outerScope`): it is `none` on every path, and reading the missing
binding raises the ReferenceError. -/
def generateAllBeatsPage (db : Except String (List AllBeatsRow)) :
    Except JsErr Response :=
  let outerScope : Option String :=
    match db with
    | .ok rows =>
      let allBeatCards := buildAllBeatCards rows
      let _ := allBeatCards
      none
    | .error _ => none
  match outerScope with
  | some allBeatCards => .ok ⟨200, "text/html", .textBody (allBeatsTemplate allBeatCards)⟩
  | none => .error (.referenceError "allBeatCards")

/-- The module's `fetch` handler around the all-beats route: a thrown error is
caught at the top and answered with `jsonResponse({error: 'Internal server
error', message}, 500)`. -/
def fetchAllBeats (db : Except String (List AllBeatsRow)) : Response :=
  match generateAllBeatsPage db with
  | .ok resp => resp
  | .error e =>
    jsonResponse (.obj [("error", .str "Internal server error"),
      ("message", .str (jsErrMessage e))]) 500

/-- C8 (failing evaluation): for every query outcome — the successful ones the
claim quantifies over included — the all-beats page renderer throws a
ReferenceError (`allBeatCards` is read out of scope), so the request never
returns the HTML document and always falls through to the top-level handler's
500 JSON response. -/
theorem C8_allBeats_scoping_bug (db : Except String (List AllBeatsRow)) :
    generateAllBeatsPage db = .error (.referenceError "allBeatCards") ∧
    fetchAllBeats db = jsonResponse (.obj [("error", .str "Internal server error"),
      ("message", .str "allBeatCards is not defined")]) 500 := by
  cases db <;> exact ⟨rfl, rfl⟩

/-! ## The individual beat page route (claim C9) -/

/-- One row of the single-beat query of the beat-detail route. -/
structure BeatPageRow where
  id : Int
  beat_number : Int
  scene_number : Option Int
  title : Option String
  description : Option String
  conflict : Option String
  emotion : Option String
  location : Option String
  time_of_day : Option String
  characters : Option String
  version : Option Int
  created_at : Option String
  updated_at : Option String
  act_no : Int
  act_title : Option String
deriving DecidableEq, Repr

/-- A row of `SELECT title FROM acts WHERE act_no = ?` (`acts.title` is the
act's name; per the data model it is a string). -/
structure ActTitleRow where
  title : String
deriving DecidableEq, Repr

/-- The display data handed to `generateBeatPage`. -/
structure BeatPageData where
  title : String
  description : String
  conflict : String
  emotion : String
  location : String
  timeOfDay : String
  characters : String
  sceneNumber : Int
  lastUpdated : String
  createdDate : String
deriving DecidableEq, Repr

/-- `` `(Scene ${beatData.sceneNumber})` `` for a plain (non-null) number:
only `0` is falsy. -/
def bpSceneParen (n : Int) : String :=
  if n = 0 then "" else "(Scene " ++ jsIntStr n ++ ")"

/-- `${beatNumber <= 1 ? 'style="visibility: hidden;"' : ''}`. -/
def bpHiddenStyle (beatNumber : Int) : String :=
  if beatNumber ≤ 1 then "style=\"visibility: hidden;\"" else ""
/-! Literal chunks of the `generateBeatPage` template (`ui.js`). -/

def bpLit0 : String :=
  "<!DOCTYPE html>\n<html lang=\"en\">\n<head>\n    <meta charset=\"UTF-8\">\n    <meta name=\"viewport\" content=\"width=device-width, initial-scale=1.0\">\n    <title>ALLY - "

def bpLit1 : String :=
  " - Beat "

def bpLit2a : String :=
  "</title>\n    <style>\n        * \x7b\n            margin: 0;\n            padding: 0;\n            box-sizing: border-box;\n        \x7d\n\n        body \x7b\n            font-family: 'Segoe UI', Roboto, 'Helvetica Neue', Arial, sans-serif;\n            background: #0d1117;\n            color: #c9d1d9;\n            line-height: 1.6;\n            padding: 2rem;\n        \x7d\n\n        .container \x7b\n            max-width: 1000px;\n            margin: 0 auto;\n        \x7d\n\n        .back-link \x7b\n            color: #58a6ff;\n            text-decoration: none;\n            display: inline-block;\n            margin-bottom: 2rem;\n            font-size: 0.9rem;\n        \x7d\n\n        .back-link:hover \x7b\n            text-decoration: underline;\n        \x7d\n\n        .header \x7b\n            border-bottom: 2px solid #21262d;\n            padding-bottom: 1.5rem;\n            margin-bottom: 2rem;\n        \x7d\n\n        h1 \x7b\n            font-size: 2rem;\n            font-weight: 600;\n            color: #58a6ff;\n            margin-bottom: 0.5rem;\n        \x7d\n\n        .metadata \x7b\n            color: #8b949e;\n            font-size: 0.9rem;\n            display: flex;\n            gap: 2rem;\n            flex-wrap: wrap;\n        \x7d\n\n        .content-section \x7b\n            background: #161b22;\n            border: 1px solid #30363d;\n            border-radius: 6px;\n            padding: 2rem;\n            margin-bottom: 2rem;\n        \x7d\n\n        .content-section h2 \x7b\n            font-size: 1.3rem;\n            color: #58a6ff;\n            margin-bottom: 1rem;\n            border-bottom: 1px solid #21262d;\n            padding-bottom: 0.5rem;\n        \x7d\n\n        .content-section p \x7b\n            margin-bottom: 1rem;\n            line-height: 1.7;\n        \x7d\n\n        .beat-details \x7b\n            display: grid;\n            grid-template-columns: repeat(auto-fit, minmax(250px, 1fr));\n"

def bpLit2b : String :=
  "            gap: 1.5rem;\n            margin-bottom: 2rem;\n        \x7d\n\n        .detail-card \x7b\n            background: #0d1117;\n            border: 1px solid #21262d;\n            border-radius: 6px;\n            padding: 1rem;\n        \x7d\n\n        .detail-card h3 \x7b\n            color: #f85149;\n            font-size: 0.9rem;\n            text-transform: uppercase;\n            letter-spacing: 0.5px;\n            margin-bottom: 0.5rem;\n        \x7d\n\n        .detail-card p \x7b\n            color: #c9d1d9;\n            font-size: 1rem;\n            margin: 0;\n        \x7d\n\n        .navigation \x7b\n            display: flex;\n            justify-content: space-between;\n            align-items: center;\n            padding: 1rem 0;\n            border-top: 1px solid #21262d;\n            margin-top: 2rem;\n        \x7d\n\n        .nav-button \x7b\n            color: #58a6ff;\n            text-decoration: none;\n            padding: 0.5rem 1rem;\n            border: 1px solid #30363d;\n            border-radius: 4px;\n            transition: background 0.2s;\n        \x7d\n\n        .nav-button:hover \x7b\n            background: #21262d;\n        \x7d\n\n        .nav-button:disabled \x7b\n            color: #8b949e;\n            border-color: #21262d;\n            pointer-events: none;\n        \x7d\n\n        @media (max-width: 768px) \x7b\n            body \x7b\n                padding: 1rem;\n            \x7d\n            \n            h1 \x7b\n                font-size: 1.5rem;\n            \x7d\n            \n            .beat-details \x7b\n                grid-template-columns: 1fr;\n            \x7d\n            \n            .navigation \x7b\n                flex-direction: column;\n                gap: 1rem;\n            \x7d\n        \x7d\n    </style>\n</head>\n<body>\n    <div class=\"container\">\n        <a href=\"/ally/act/"

def bpLit3a : String :=
  "\" class=\"back-link\">"

def bpLit3b : String :=
  "← Back to "

def bpLit4 : String :=
  "</a>\n        \n        <div class=\"header\">\n            <h1>Beat "

def bpLit5 : String :=
  " "

def bpLit6 : String :=
  "</h1>\n            <div class=\"metadata\">\n                <span>Last updated: "

def bpLit7 : String :=
  "</span>\n                <span>Created: "

def bpLit8 : String :=
  "</span>\n            </div>\n        </div>\n\n        <div class=\"content-section\">\n            <h2>"

def bpLit9 : String :=
  "</h2>\n            <p>"

def bpLit10 : String :=
  "</p>\n        </div>\n\n        <div class=\"beat-details\">\n            <div class=\"detail-card\">\n                <h3>Conflict</h3>\n                <p>"

def bpLit11 : String :=
  "</p>\n            </div>\n            \n            <div class=\"detail-card\">\n                <h3>Emotion</h3>\n                <p>"

def bpLit12 : String :=
  "</p>\n            </div>\n            \n            <div class=\"detail-card\">\n                <h3>Location</h3>\n                <p>"

def bpLit13 : String :=
  "</p>\n            </div>\n            \n            <div class=\"detail-card\">\n                <h3>Time of Day</h3>\n                <p>"

def bpLit14 : String :=
  "</p>\n            </div>\n            \n            <div class=\"detail-card\">\n                <h3>Characters</h3>\n                <p>"

def bpLit15 : String :=
  "</p>\n            </div>\n        </div>\n\n        <div class=\"navigation\">\n            <a href=\"/ally/act/"

def bpLit16 : String :=
  "/beat/"

def bpLit17 : String :=
  "\" class=\"nav-button\" "

def bpLit18 : String :=
  ">\n                ← Previous Beat\n            </a>\n            \n            <a href=\"/ally/act/"

def bpLit19 : String :=
  "\" class=\"nav-button\">\n                "

def bpLit20 : String :=
  " Overview\n            </a>\n            \n            <a href=\"/ally/act/"

def bpLit21 : String :=
  "/beat/"

def bpLit22 : String :=
  "\" class=\"nav-button\">\n                Next Beat →\n            </a>\n        </div>\n    </div>\n</body>\n</html>"

/-- The individual beat page of `ui.js` (`generateBeatPage`): the template
chunks with the page's interpolation slots filled in. -/
def generateBeatPage (actNumber beatNumber : Int) (beatData : BeatPageData)
    (actTitle : String) : String :=
  bpLit0
    ++ (actTitle)
    ++ bpLit1
    ++ (jsIntStr beatNumber)
    ++ bpLit2a ++ bpLit2b
    ++ (jsIntStr actNumber)
    ++ bpLit3a ++ bpLit3b
    ++ (actTitle)
    ++ bpLit4
    ++ (jsIntStr beatNumber)
    ++ bpLit5
    ++ (bpSceneParen beatData.sceneNumber)
    ++ bpLit6
    ++ (beatData.lastUpdated)
    ++ bpLit7
    ++ (beatData.createdDate)
    ++ bpLit8
    ++ (beatData.title)
    ++ bpLit9
    ++ (beatData.description)
    ++ bpLit10
    ++ (beatData.conflict)
    ++ bpLit11
    ++ (beatData.emotion)
    ++ bpLit12
    ++ (beatData.location)
    ++ bpLit13
    ++ (beatData.timeOfDay)
    ++ bpLit14
    ++ (beatData.characters)
    ++ bpLit15
    ++ (jsIntStr actNumber)
    ++ bpLit16
    ++ (jsIntStr (beatNumber - 1))
    ++ bpLit17
    ++ (bpHiddenStyle beatNumber)
    ++ bpLit18
    ++ (jsIntStr actNumber)
    ++ bpLit19
    ++ (actTitle)
    ++ bpLit20
    ++ (jsIntStr actNumber)
    ++ bpLit21
    ++ (jsIntStr (beatNumber + 1))
    ++ bpLit22

/-- The fallback display data of the beat-not-found branch. -/
def notFoundBeatData (beatNumber : Int) (actTitle : String) : BeatPageData :=
  { title := "Beat " ++ jsIntStr beatNumber
    description := "Beat " ++ jsIntStr beatNumber ++ " was not found in " ++ actTitle
      ++ ". This beat may not exist yet or may have been removed."
    conflict := "N/A"
    emotion := "N/A"
    location := "N/A"
    timeOfDay := "N/A"
    characters := "N/A"
    sceneNumber := beatNumber
    lastUpdated := "N/A"
    createdDate := "Not available" }

/-- The display data built from a found beat row.  `fmtDate`/`fmtTime` stand
for `new Date(…).toLocaleDateString()` on the two timestamp columns. -/
def foundBeatData (fmtDate fmtTime : String → String) (beatNumber : Int)
    (beat : BeatPageRow) : BeatPageData :=
  { title := jsOrS beat.title ("Beat " ++ jsIntStr beatNumber)
    description := jsOrS beat.description "No description available."
    conflict := jsOrS beat.conflict "No conflict defined"
    emotion := jsOrS beat.emotion "No emotion specified"
    location := jsOrS beat.location "Location not specified"
    timeOfDay := jsOrS beat.time_of_day "Time not specified"
    characters := jsOrS beat.characters "Characters not specified"
    sceneNumber := if jsTruthyN beat.scene_number then beat.scene_number.getD 0 else beatNumber
    lastUpdated := if jsTruthyS beat.updated_at then fmtDate (beat.updated_at.getD "") else "Unknown"
    createdDate := if jsTruthyS beat.created_at then fmtTime (beat.created_at.getD "") else "Creation date unknown" }

/-- The display data of the route's catch branch. -/
def errorBeatData (beatNumber : Int) (msg : String) : BeatPageData :=
  { title := "Beat " ++ jsIntStr beatNumber
    description := "Unable to load beat data due to a database error: " ++ msg
      ++ ". Please try again later."
    conflict := "Error"
    emotion := "Error"
    location := "Error"
    timeOfDay := "Error"
    characters := "Error"
    sceneNumber := beatNumber
    lastUpdated := "Error"
    createdDate := "Error" }

/-- The `/ally/act/{n}/beat/{m}` route branch of `handleRequest`: query the
beat; if absent, query the act for its title and render the not-found page
with status 200; if a query raises, render the error page with status 500. -/
def handleBeatDetail (fmtDate fmtTime : String → String) (actNumber beatNumber : Int)
    (beatQ : Except String (Option BeatPageRow))
    (actQ : Except String (Option ActTitleRow)) : Response :=
  match beatQ with
  | .error msg =>
    ⟨500, "text/html", .textBody (generateBeatPage actNumber beatNumber
      (errorBeatData beatNumber msg) ("Act " ++ jsIntStr actNumber))⟩
  | .ok (some beat) =>
    let beatData := foundBeatData fmtDate fmtTime beatNumber beat
    let actTitle := jsOrS beat.act_title ("Act " ++ jsIntStr actNumber)
    ⟨200, "text/html", .textBody (generateBeatPage actNumber beatNumber beatData actTitle)⟩
  | .ok none =>
    match actQ with
    | .error msg =>
      ⟨500, "text/html", .textBody (generateBeatPage actNumber beatNumber
        (errorBeatData beatNumber msg) ("Act " ++ jsIntStr actNumber))⟩
    | .ok actOpt =>
      let actTitle := match actOpt with
        | some act => act.title
        | none => "Act " ++ jsIntStr actNumber
      let beatData := notFoundBeatData beatNumber actTitle
      ⟨200, "text/html", .textBody (generateBeatPage actNumber beatNumber beatData actTitle)⟩

/-- C9: a beat-detail request whose `(act_no, beat_number)` matches no beat
row but whose act exists answers with status 200, and the page body states
that the beat was not found while showing the matching act's title (in the
message itself and in the back link). -/
theorem C9_beat_not_found_page (fmtDate fmtTime : String → String)
    (actNumber beatNumber : Int) (t : String) :
    (handleBeatDetail fmtDate fmtTime actNumber beatNumber
      (.ok none) (.ok (some ⟨t⟩))).status = 200 ∧
    ∃ page : String,
      (handleBeatDetail fmtDate fmtTime actNumber beatNumber
        (.ok none) (.ok (some ⟨t⟩))).body = .textBody page ∧
      ("Beat " ++ jsIntStr beatNumber ++ " was not found in " ++ t).data <:+: page.data ∧
      ("← Back to " ++ t).data <:+: page.data := by
  refine ⟨rfl, generateBeatPage actNumber beatNumber (notFoundBeatData beatNumber t) t,
    rfl, ?_, ?_⟩
  · refine ⟨bpLit0.data ++ t.data ++ bpLit1.data ++ (jsIntStr beatNumber).data
      ++ bpLit2a.data ++ bpLit2b.data ++ (jsIntStr actNumber).data
      ++ bpLit3a.data ++ bpLit3b.data ++ t.data ++ bpLit4.data
      ++ (jsIntStr beatNumber).data ++ bpLit5.data ++ (bpSceneParen beatNumber).data
      ++ bpLit6.data ++ "N/A".data ++ bpLit7.data ++ "Not available".data
      ++ bpLit8.data ++ "Beat ".data ++ (jsIntStr beatNumber).data ++ bpLit9.data,
      ". This beat may not exist yet or may have been removed.".data
      ++ bpLit10.data ++ "N/A".data ++ bpLit11.data ++ "N/A".data
      ++ bpLit12.data ++ "N/A".data ++ bpLit13.data ++ "N/A".data
      ++ bpLit14.data ++ "N/A".data ++ bpLit15.data ++ (jsIntStr actNumber).data
      ++ bpLit16.data ++ (jsIntStr (beatNumber - 1)).data ++ bpLit17.data
      ++ (bpHiddenStyle beatNumber).data ++ bpLit18.data ++ (jsIntStr actNumber).data
      ++ bpLit19.data ++ t.data ++ bpLit20.data ++ (jsIntStr actNumber).data
      ++ bpLit21.data ++ (jsIntStr (beatNumber + 1)).data ++ bpLit22.data, ?_⟩
    simp [generateBeatPage, notFoundBeatData, String.data_append, List.append_assoc]
  · refine ⟨bpLit0.data ++ t.data ++ bpLit1.data ++ (jsIntStr beatNumber).data
      ++ bpLit2a.data ++ bpLit2b.data ++ (jsIntStr actNumber).data ++ bpLit3a.data,
      bpLit4.data ++ (jsIntStr beatNumber).data ++ bpLit5.data
      ++ (bpSceneParen beatNumber).data ++ bpLit6.data ++ "N/A".data
      ++ bpLit7.data ++ "Not available".data ++ bpLit8.data
      ++ ("Beat " ++ jsIntStr beatNumber).data ++ bpLit9.data
      ++ (notFoundBeatData beatNumber t).description.data
      ++ bpLit10.data ++ "N/A".data ++ bpLit11.data ++ "N/A".data
      ++ bpLit12.data ++ "N/A".data ++ bpLit13.data ++ "N/A".data
      ++ bpLit14.data ++ "N/A".data ++ bpLit15.data ++ (jsIntStr actNumber).data
      ++ bpLit16.data ++ (jsIntStr (beatNumber - 1)).data ++ bpLit17.data
      ++ (bpHiddenStyle beatNumber).data ++ bpLit18.data ++ (jsIntStr actNumber).data
      ++ bpLit19.data ++ t.data ++ bpLit20.data ++ (jsIntStr actNumber).data
      ++ bpLit21.data ++ (jsIntStr (beatNumber + 1)).data ++ bpLit22.data, ?_⟩
    simp [generateBeatPage, notFoundBeatData, bpLit3b, String.data_append,
      List.append_assoc]
